import Mathlib

/-!
Verification development for the dwc2 USB controller emulation
(hw/usb/hcd-dwc2.c).  The definitions below are a shallow embedding of the
controller's register file, interrupt aggregation, frame clock, host-mode
channel engine (dwc2_handle_packet) and device-mode endpoint engine
(dwc2_device_process_packet).  Registers are 32-bit words modelled as Nat
with explicit truncation; register banks are modelled as functions from
word index to word.  Guest-memory DMA data movement is not modelled (no
claim concerns memory contents); the descriptor-DMA branch of the device
engine is unmodelled and is represented by an Option-none result.
Register bit layout constants follow the dwc2 register definitions
(hw/usb/dwc2-regs.h, the standard dwc2 layout).
-/

namespace DWC2

/-- Bitwise complement within a 32-bit word, as C's `~` on a uint32. -/
def cpl32 (x : Nat) : Nat := x ^^^ (2 ^ 32 - 1)

/-- Field mask of width `w` starting at bit `sh`, as used by the
`get_field`/`set_field` macros of the source. -/
def maskf (sh w : Nat) : Nat := (2 ^ w - 1) <<< sh

/-- The source's `get_field(data, field)` macro: `(data & MASK) >> SHIFT`. -/
def get_field (x sh w : Nat) : Nat := (x &&& maskf sh w) >>> sh

/-- The source's `set_field(data, newval, field)` macro:
`val &= ~MASK; val |= (newval << SHIFT) & MASK`. -/
def set_field (x sh w v : Nat) : Nat :=
  (x &&& cpl32 (maskf sh w)) ||| ((v <<< sh) &&& maskf sh w)

/-- The source's `get_bit(data, bitmask)` macro: `!!(data & bitmask)`. -/
def get_bit (x m : Nat) : Bool := x &&& m ≠ 0

theorem testBit_maskf (sh w i : Nat) :
    (maskf sh w).testBit i = decide (sh ≤ i ∧ i < sh + w) := by
  simp only [maskf, Nat.testBit_shiftLeft, Nat.testBit_two_pow_sub_one]
  by_cases h1 : sh ≤ i <;> by_cases h2 : i < sh + w <;>
    simp [h1, h2] <;> omega

theorem maskf_lt (sh w : Nat) (h : sh + w ≤ 32) : maskf sh w < 2 ^ 32 := by
  have : ∀ i, 32 ≤ i → (maskf sh w).testBit i = false := by
    intro i hi
    rw [testBit_maskf]
    simp only [decide_eq_false_iff_not]
    omega
  calc maskf sh w < 2 ^ 32 := Nat.lt_pow_two_of_testBit _ this

theorem testBit_cpl32 (x i : Nat) (hx : x < 2 ^ 32) :
    (cpl32 x).testBit i = (decide (i < 32) && !x.testBit i) := by
  simp only [cpl32, Nat.testBit_xor, Nat.testBit_two_pow_sub_one]
  by_cases h : i < 32
  · simp [h]
  · have hx32 : (2 : Nat) ^ 32 ≤ 2 ^ i := Nat.pow_le_pow_right (by norm_num) (by omega)
    have : x.testBit i = false := Nat.testBit_lt_two_pow (lt_of_lt_of_le hx hx32)
    simp [h, this]

theorem testBit_get_field (x sh w i : Nat) :
    (get_field x sh w).testBit i = (x.testBit (sh + i) && decide (i < w)) := by
  simp only [get_field, Nat.testBit_shiftRight, Nat.testBit_and, testBit_maskf]
  by_cases h : i < w <;> simp [h]

theorem testBit_set_field (x sh w v j : Nat) (hw : sh + w ≤ 32) :
    (set_field x sh w v).testBit j =
      ((x.testBit j && !(decide (sh ≤ j ∧ j < sh + w))) && decide (j < 32) ||
       (v.testBit (j - sh) && decide (sh ≤ j ∧ j < sh + w))) := by
  simp only [set_field, Nat.testBit_or, Nat.testBit_and,
    testBit_cpl32 _ _ (maskf_lt sh w hw), testBit_maskf, Nat.testBit_shiftLeft]
  by_cases h1 : sh ≤ j <;> by_cases h2 : j < sh + w <;>
    by_cases h3 : j < 32 <;> simp [h1, h2, h3, Nat.le_of_lt]

theorem get_field_lt (x sh w : Nat) : get_field x sh w < 2 ^ w := by
  apply Nat.lt_pow_two_of_testBit
  intro i hi
  rw [testBit_get_field]
  simp only [Bool.and_eq_false_iff, decide_eq_false_iff_not]
  omega

theorem get_set_same (x sh w v : Nat) (hw : sh + w ≤ 32) (hv : v < 2 ^ w) :
    get_field (set_field x sh w v) sh w = v := by
  apply Nat.eq_of_testBit_eq
  intro i
  rw [testBit_get_field, testBit_set_field x sh w v _ hw]
  by_cases h : i < w
  · have h1 : sh ≤ sh + i := Nat.le_add_right _ _
    have h2 : sh + i < sh + w := by omega
    simp [h, h1, h2]
  · have : v.testBit i = false := by
      apply Nat.testBit_lt_two_pow
      calc v < 2 ^ w := hv
        _ ≤ 2 ^ i := Nat.pow_le_pow_right (by norm_num) (by omega)
    simp [h, this]

theorem get_set_other (x sh1 w1 sh2 w2 v : Nat) (h1 : sh1 + w1 ≤ 32)
    (hdisj : sh1 + w1 ≤ sh2 ∨ sh2 + w2 ≤ sh1) (h2 : sh2 + w2 ≤ 32) :
    get_field (set_field x sh2 w2 v) sh1 w1 = get_field x sh1 w1 := by
  apply Nat.eq_of_testBit_eq
  intro i
  rw [testBit_get_field, testBit_get_field, testBit_set_field x sh2 w2 v _ h2]
  by_cases h : i < w1
  · have hno : ¬(sh2 ≤ sh1 + i ∧ sh1 + i < sh2 + w2) := by omega
    have h32 : sh1 + i < 32 := by omega
    simp [h, hno, h32]
  · simp [h]

theorem and_cpl32_self (x m : Nat) (hm : m < 2 ^ 32) :
    (x &&& cpl32 m) &&& m = 0 := by
  apply Nat.eq_of_testBit_eq
  intro i
  simp only [Nat.testBit_and, testBit_cpl32 _ _ hm, Nat.zero_testBit]
  cases h : m.testBit i <;> simp [h]

theorem and_cpl32_other (x m1 m2 : Nat) (hm1 : m1 < 2 ^ 32)
    (hm2 : m2 < 2 ^ 32) (hdisj : m1 &&& m2 = 0) :
    (x &&& cpl32 m1) &&& m2 = x &&& m2 := by
  apply Nat.eq_of_testBit_eq
  intro i
  simp only [Nat.testBit_and, testBit_cpl32 _ _ hm1]
  by_cases h2 : m2.testBit i
  · have h1 : m1.testBit i = false := by
      by_contra hc
      rw [Bool.not_eq_false] at hc
      have : (m1 &&& m2).testBit i = true := by
        simp [Nat.testBit_and, h2, hc]
      rw [hdisj] at this
      simp at this
    have hi : i < 32 := by
      by_contra hge
      have : m2.testBit i = false := Nat.testBit_lt_two_pow
        (lt_of_lt_of_le hm2 (Nat.pow_le_pow_right (by norm_num) (by omega)))
      simp [this] at h2
    simp [h1, h2, hi]
  · simp [Bool.eq_false_iff.mpr h2]

theorem or_and_absorb (a b : Nat) : (a ||| b) &&& b = b := by
  apply Nat.eq_of_testBit_eq
  intro i
  simp only [Nat.testBit_and, Nat.testBit_or]
  cases h : b.testBit i <;> simp [h]

theorem and_ne_zero_of_or_left {a m b : Nat} (h : a &&& b ≠ 0) :
    (a ||| m) &&& b ≠ 0 := by
  obtain ⟨i, hi⟩ := Nat.ne_zero_implies_bit_true h
  simp only [Nat.testBit_and, Bool.and_eq_true] at hi
  intro hc
  have : ((a ||| m) &&& b).testBit i = true := by
    simp [Nat.testBit_and, Nat.testBit_or, hi.1, hi.2]
  rw [hc] at this
  simp at this

theorem and_cpl32_ne_zero {a m b : Nat} (h : a &&& b ≠ 0)
    (hm : m < 2 ^ 32) (hb : b < 2 ^ 32) (hdisj : m &&& b = 0) :
    (a &&& cpl32 m) &&& b ≠ 0 := by
  obtain ⟨i, hi⟩ := Nat.ne_zero_implies_bit_true h
  simp only [Nat.testBit_and, Bool.and_eq_true] at hi
  have hmi : m.testBit i = false := by
    by_contra hc
    rw [Bool.not_eq_false] at hc
    have : (m &&& b).testBit i = true := by
      simp [Nat.testBit_and, hi.2, hc]
    rw [hdisj] at this
    simp at this
  have hi32 : i < 32 := by
    by_contra hge
    have : b.testBit i = false := Nat.testBit_lt_two_pow
      (lt_of_lt_of_le hb (Nat.pow_le_pow_right (by norm_num) (by omega)))
    simp [this] at hi
  intro hc
  have : ((a &&& cpl32 m) &&& b).testBit i = true := by
    simp [Nat.testBit_and, testBit_cpl32 _ _ hm, hi.1, hi.2, hmi, hi32]
  rw [hc] at this
  simp at this

/-! Register bit layout constants (dwc2-regs.h, standard dwc2 layout). -/

def GAHBCFG_GLBL_INTR_EN : Nat := 1 <<< 0

def GINTSTS_CURMODE_HOST : Nat := 1 <<< 0
def GINTSTS_OTGINT : Nat := 1 <<< 2
def GINTSTS_SOF : Nat := 1 <<< 3
def GINTSTS_RXFLVL : Nat := 1 <<< 4
def GINTSTS_NPTXFEMP : Nat := 1 <<< 5
def GINTSTS_GINNAKEFF : Nat := 1 <<< 6
def GINTSTS_GOUTNAKEFF : Nat := 1 <<< 7
def GINTSTS_ENUMDONE : Nat := 1 <<< 13
def GINTSTS_IEPINT : Nat := 1 <<< 18
def GINTSTS_OEPINT : Nat := 1 <<< 19
def GINTSTS_PRTINT : Nat := 1 <<< 24
def GINTSTS_HCHINT : Nat := 1 <<< 25
def GINTSTS_PTXFEMP : Nat := 1 <<< 26

def GRSTCTL_CSFTRST : Nat := 1 <<< 0
def GRSTCTL_HSFTRST : Nat := 1 <<< 1
def GRSTCTL_FRMCNTRRST : Nat := 1 <<< 2
def GRSTCTL_IN_TKNQ_FLSH : Nat := 1 <<< 3
def GRSTCTL_RXFFLSH : Nat := 1 <<< 4
def GRSTCTL_TXFFLSH : Nat := 1 <<< 5
def GRSTCTL_DMAREQ : Nat := 1 <<< 30
def GRSTCTL_AHBIDLE : Nat := 1 <<< 31

/-- The six self-clearing reset sub-flags of GRSTCTL. -/
def GRSTCTL_SELFCLEAR : Nat :=
  GRSTCTL_TXFFLSH ||| GRSTCTL_RXFFLSH ||| GRSTCTL_IN_TKNQ_FLSH |||
  GRSTCTL_FRMCNTRRST ||| GRSTCTL_HSFTRST ||| GRSTCTL_CSFTRST

def GOTGCTL_SESREQSCS : Nat := 1 <<< 0
def GOTGCTL_HSTNEGSCS : Nat := 1 <<< 8
def GOTGCTL_CONID_B : Nat := 1 <<< 16
def GOTGCTL_DBNC_SHORT : Nat := 1 <<< 17
def GOTGCTL_ASESVLD : Nat := 1 <<< 18
def GOTGCTL_BSESVLD : Nat := 1 <<< 19
def GOTGCTL_MULT_VALID_BC_MASK : Nat := maskf 22 5

/-- Read-only bits of GOTGCTL, as listed in dwc2_glbreg_write. -/
def GOTGCTL_RO : Nat :=
  GOTGCTL_MULT_VALID_BC_MASK ||| GOTGCTL_BSESVLD ||| GOTGCTL_ASESVLD |||
  GOTGCTL_DBNC_SHORT ||| GOTGCTL_CONID_B ||| GOTGCTL_HSTNEGSCS |||
  GOTGCTL_SESREQSCS

/-- Read-only bits of GINTSTS, as listed in dwc2_glbreg_write. -/
def GINTSTS_RO : Nat :=
  GINTSTS_PTXFEMP ||| GINTSTS_HCHINT ||| GINTSTS_PRTINT |||
  GINTSTS_OEPINT ||| GINTSTS_IEPINT ||| GINTSTS_GOUTNAKEFF |||
  GINTSTS_GINNAKEFF ||| GINTSTS_NPTXFEMP ||| GINTSTS_RXFLVL |||
  GINTSTS_OTGINT ||| GINTSTS_CURMODE_HOST

def HCCHAR_MPS_SH : Nat := 0
def HCCHAR_MPS_W : Nat := 11
def HCCHAR_EPNUM_SH : Nat := 11
def HCCHAR_EPNUM_W : Nat := 4
def HCCHAR_EPDIR : Nat := 1 <<< 15
def HCCHAR_EPTYPE_SH : Nat := 18
def HCCHAR_EPTYPE_W : Nat := 2
def HCCHAR_DEVADDR_SH : Nat := 22
def HCCHAR_DEVADDR_W : Nat := 7
def HCCHAR_CHDIS : Nat := 1 <<< 30
def HCCHAR_CHENA : Nat := 1 <<< 31

def TSIZ_XFERSIZE_SH : Nat := 0
def TSIZ_XFERSIZE_W : Nat := 19
def TSIZ_PKTCNT_SH : Nat := 19
def TSIZ_PKTCNT_W : Nat := 10
def TSIZ_SC_MC_PID_SH : Nat := 29
def TSIZ_SC_MC_PID_W : Nat := 2
def TSIZ_SC_MC_PID_SETUP : Nat := 3

def HCINTMSK_XFERCOMPL : Nat := 1 <<< 0
def HCINTMSK_CHHLTD : Nat := 1 <<< 1
def HCINTMSK_AHBERR : Nat := 1 <<< 2
def HCINTMSK_STALL : Nat := 1 <<< 3
def HCINTMSK_NAK : Nat := 1 <<< 4
def HCINTMSK_ACK : Nat := 1 <<< 5
def HCINTMSK_NYET : Nat := 1 <<< 6
def HCINTMSK_XACTERR : Nat := 1 <<< 7
def HCINTMSK_BBLERR : Nat := 1 <<< 8
def HCINTMSK_FRMOVRUN : Nat := 1 <<< 9
def HCINTMSK_DATATGLERR : Nat := 1 <<< 10
def HCINTMSK_RESERVED14_31 : Nat := maskf 14 18

def DXEPCTL_MPS_SH : Nat := 0
def DXEPCTL_MPS_W : Nat := 11
def D0EPCTL_MPS_MASK : Nat := 3
def DXEPCTL_USBACTEP : Nat := 1 <<< 15
def DXEPCTL_NAKSTS : Nat := 1 <<< 17
def DXEPCTL_EPTYPE_SH : Nat := 18
def DXEPCTL_EPTYPE_W : Nat := 2
def DXEPCTL_STALL : Nat := 1 <<< 21
def DXEPCTL_TXFNUM_SH : Nat := 22
def DXEPCTL_TXFNUM_W : Nat := 4
def DXEPCTL_CNAK : Nat := 1 <<< 26
def DXEPCTL_SNAK : Nat := 1 <<< 27
def DXEPCTL_EPDIS : Nat := 1 <<< 30
def DXEPCTL_EPENA : Nat := 1 <<< 31

def DXEPINT_XFERCOMPL : Nat := 1 <<< 0
def DXEPINT_EPDISBLD : Nat := 1 <<< 1
def DXEPINT_AHBERR : Nat := 1 <<< 2
def DXEPINT_SETUP : Nat := 1 <<< 3
def DXEPINT_OUTTKNEPDIS : Nat := 1 <<< 4
def DXEPINT_INTKNTXFEMP : Nat := 1 <<< 4
def DXEPINT_INEPNAKEFF : Nat := 1 <<< 6
def DXEPINT_SETUP_RCVD : Nat := 1 <<< 15

def DIEPTSIZ0_XFERSIZE_SH : Nat := 0
def DIEPTSIZ0_XFERSIZE_W : Nat := 7
def DIEPTSIZ0_PKTCNT_SH : Nat := 19
def DIEPTSIZ0_PKTCNT_W : Nat := 2
def DOEPTSIZ0_XFERSIZE_SH : Nat := 0
def DOEPTSIZ0_XFERSIZE_W : Nat := 7
def DOEPTSIZ0_PKTCNT_SH : Nat := 19
def DOEPTSIZ0_PKTCNT_W : Nat := 1
def DOEPTSIZ0_SUPCNT_SH : Nat := 29
def DOEPTSIZ0_SUPCNT_W : Nat := 2
def DXEPTSIZ_XFERSIZE_SH : Nat := 0
def DXEPTSIZ_XFERSIZE_W : Nat := 19
def DXEPTSIZ_PKTCNT_SH : Nat := 19
def DXEPTSIZ_PKTCNT_W : Nat := 10

def DSTS_ENUMSPD_SH : Nat := 1
def DSTS_ENUMSPD_W : Nat := 2
def DSTS_ENUMSPD_HS : Nat := 0
def DCFG_DESCDMA_EN : Nat := 1 <<< 23

def USB_TOKEN_SETUP : Nat := 0x2d
def USB_TOKEN_IN : Nat := 0x69
def USB_TOKEN_OUT : Nat := 0xe1
def USB_ENDPOINT_XFER_CONTROL : Nat := 0
def USB_ENDPOINT_XFER_ISOC : Nat := 1
def USB_ENDPOINT_XFER_BULK : Nat := 2
def USB_ENDPOINT_XFER_INT : Nat := 3
def USB_REQ_SET_ADDRESS : Nat := 5

def DWC2_MAX_XFER_SIZE : Nat := 65536
def DWC2_NB_CHAN : Nat := 8

/-- Word index of each global register in the glbreg bank (offset / 4). -/
def GOTGCTL_ADDR : Nat := 0x0
def GAHBCFG_ADDR : Nat := 0x8
def GRSTCTL_ADDR : Nat := 0x10
def GINTSTS_ADDR : Nat := 0x14
def GINTMSK_ADDR : Nat := 0x18
def GINTSTS2_ADDR : Nat := 0x6c

/-- Packet status codes returned by the attached-device collaborator
(USB_RET_* in the source, stored negated in pstatus/pintr index order). -/
inductive USBRet where
  | success
  | nodev
  | nak
  | stall
  | babble
  | ioerror
  | usbAsync
  | addToQueue
  | removeFromQueue
deriving DecidableEq

/-- The pintr table of the source: per-status interrupt cause bit,
indexed by the negated packet status. -/
def USBRet.intrBit : USBRet → Nat
  | .success => HCINTMSK_XFERCOMPL
  | .nodev => HCINTMSK_XACTERR
  | .nak => HCINTMSK_NAK
  | .stall => HCINTMSK_STALL
  | .babble => HCINTMSK_BBLERR
  | .ioerror => HCINTMSK_XACTERR
  | .usbAsync => HCINTMSK_XACTERR
  | .addToQueue => HCINTMSK_XACTERR
  | .removeFromQueue => HCINTMSK_XACTERR

/-- Per-channel in-flight packet bookkeeping (DWC2Packet in the source). -/
inductive DWC2Async where
  | asyncNone
  | asyncInflight
  | asyncFinished
deriving DecidableEq

structure DWC2Packet where
  devadr : Nat
  epnum : Nat
  epdir : Nat
  mps : Nat
  pid : Nat
  index : Nat
  pcnt : Nat
  len : Nat
  asyncState : DWC2Async
  small : Bool
  needs_service : Bool
deriving DecidableEq

instance : Inhabited DWC2Packet :=
  ⟨⟨0, 0, 0, 0, 0, 0, 0, 0, .asyncNone, false, false⟩⟩

/-- The controller state (register part of DWC2State in the source).
Register banks are functions from word index to 32-bit word; `irqlevel`
models the driven level of the output interrupt line (the `oldlevel`
static of dwc2_update_irq).  Frame-clock fields live in `FrameClock`
below. -/
structure DWC2State where
  glbreg : Nat → Nat
  haint : Nat
  haintmsk : Nat
  hreg1 : Nat → Nat
  packet : Nat → DWC2Packet
  irqlevel : Bool
  dcfg : Nat
  dsts : Nat
  daint : Nat
  daintmsk : Nat
  diepmsk : Nat
  doepmsk : Nat
  diepreg : Nat → Nat
  doepreg : Nat → Nat

def DWC2State.gintsts (s : DWC2State) : Nat := s.glbreg (GINTSTS_ADDR / 4)

def DWC2State.gintmsk (s : DWC2State) : Nat := s.glbreg (GINTMSK_ADDR / 4)

def DWC2State.gahbcfg (s : DWC2State) : Nat := s.glbreg (GAHBCFG_ADDR / 4)

def DWC2State.grstctl (s : DWC2State) : Nat := s.glbreg (GRSTCTL_ADDR / 4)

def setGlbreg (s : DWC2State) (i v : Nat) : DWC2State :=
  { s with glbreg := Function.update s.glbreg i v }

def setGintsts (s : DWC2State) (v : Nat) : DWC2State :=
  setGlbreg s (GINTSTS_ADDR / 4) v

def setHreg1 (s : DWC2State) (i v : Nat) : DWC2State :=
  { s with hreg1 := Function.update s.hreg1 i v }

def setPacket (s : DWC2State) (chan : Nat) (p : DWC2Packet) : DWC2State :=
  { s with packet := Function.update s.packet chan p }

def DWC2State.diepctl (s : DWC2State) (ep : Nat) : Nat := s.diepreg (8 * ep)

def DWC2State.diepint (s : DWC2State) (ep : Nat) : Nat := s.diepreg (8 * ep + 2)

def DWC2State.dieptsiz (s : DWC2State) (ep : Nat) : Nat := s.diepreg (8 * ep + 4)

def DWC2State.diepdma (s : DWC2State) (ep : Nat) : Nat := s.diepreg (8 * ep + 5)

def DWC2State.doepctl (s : DWC2State) (ep : Nat) : Nat := s.doepreg (8 * ep)

def DWC2State.doepint (s : DWC2State) (ep : Nat) : Nat := s.doepreg (8 * ep + 2)

def DWC2State.doeptsiz (s : DWC2State) (ep : Nat) : Nat := s.doepreg (8 * ep + 4)

def DWC2State.doepdma (s : DWC2State) (ep : Nat) : Nat := s.doepreg (8 * ep + 5)

def setDiepreg (s : DWC2State) (i v : Nat) : DWC2State :=
  { s with diepreg := Function.update s.diepreg i v }

def setDoepreg (s : DWC2State) (i v : Nat) : DWC2State :=
  { s with doepreg := Function.update s.doepreg i v }

/-! Interrupt aggregation (dwc2_update_irq and the raise/lower family). -/

/-- The output interrupt line condition of dwc2_update_irq. -/
def irqFormula (s : DWC2State) : Bool :=
  decide (s.gintsts &&& s.gintmsk ≠ 0) && decide (s.gahbcfg &&& GAHBCFG_GLBL_INTR_EN ≠ 0)

/-- dwc2_update_irq: recompute the level, drive the line only on an edge. -/
def dwc2_update_irq (s : DWC2State) : DWC2State :=
  let level := irqFormula s
  if level ≠ s.irqlevel then { s with irqlevel := level } else s

/-- dwc2_raise_global_irq: set the cause bits only if all are clear. -/
def dwc2_raise_global_irq (s : DWC2State) (intr : Nat) : DWC2State :=
  if s.gintsts &&& intr = 0 then
    dwc2_update_irq (setGintsts s (s.gintsts ||| intr))
  else s

/-- dwc2_lower_global_irq: clear the cause bits only if some are set. -/
def dwc2_lower_global_irq (s : DWC2State) (intr : Nat) : DWC2State :=
  if s.gintsts &&& intr ≠ 0 then
    dwc2_update_irq (setGintsts s (s.gintsts &&& cpl32 intr))
  else s

/-- dwc2_raise_host_irq. -/
def dwc2_raise_host_irq (s : DWC2State) (host_intr : Nat) : DWC2State :=
  if s.haint &&& host_intr = 0 then
    let s := { s with haint := (s.haint ||| host_intr) &&& 0xffff }
    if s.haint &&& s.haintmsk ≠ 0 then dwc2_raise_global_irq s GINTSTS_HCHINT
    else s
  else s

/-- dwc2_lower_host_irq. -/
def dwc2_lower_host_irq (s : DWC2State) (host_intr : Nat) : DWC2State :=
  if s.haint &&& host_intr ≠ 0 then
    let s := { s with haint := s.haint &&& cpl32 host_intr }
    if s.haint &&& s.haintmsk = 0 then dwc2_lower_global_irq s GINTSTS_HCHINT
    else s
  else s

/-- dwc2_update_hc_irq. -/
def dwc2_update_hc_irq (s : DWC2State) (index : Nat) : DWC2State :=
  let host_intr := 1 <<< (index / 8)
  if s.hreg1 (index + 2) &&& s.hreg1 (index + 3) ≠ 0 then
    dwc2_raise_host_irq s host_intr
  else
    dwc2_lower_host_irq s host_intr

/-- dwc2_raise_device_irq. -/
def dwc2_raise_device_irq (s : DWC2State) (ep : Nat) (out : Bool) : DWC2State :=
  let device_intr := (1 <<< ep) <<< (if out then 16 else 0)
  if s.daint &&& device_intr = 0 then
    let s := { s with daint := s.daint ||| device_intr }
    if s.daint &&& s.daintmsk ≠ 0 then
      let s := if s.daint &&& 0xffff ≠ 0 then dwc2_raise_global_irq s GINTSTS_IEPINT else s
      if (s.daint >>> 16) &&& 0xffff ≠ 0 then dwc2_raise_global_irq s GINTSTS_OEPINT else s
    else s
  else s

/-- dwc2_lower_device_irq. -/
def dwc2_lower_device_irq (s : DWC2State) (ep : Nat) (out : Bool) : DWC2State :=
  let device_intr := (1 <<< ep) <<< (if out then 16 else 0)
  if s.daint &&& device_intr ≠ 0 then
    let s := { s with daint := s.daint &&& cpl32 device_intr }
    if s.daint &&& s.daintmsk = 0 then
      let s := if s.daint &&& 0xffff = 0 then dwc2_lower_global_irq s GINTSTS_IEPINT else s
      if (s.daint >>> 16) &&& 0xffff = 0 then dwc2_lower_global_irq s GINTSTS_OEPINT else s
    else s
  else s

/-- dwc2_update_ep_irq. -/
def dwc2_update_ep_irq (s : DWC2State) (ep : Nat) : DWC2State :=
  let s :=
    if s.diepint ep &&& s.diepmsk ≠ 0 then dwc2_raise_device_irq s ep false
    else dwc2_lower_device_irq s ep false
  if s.doepint ep &&& s.doepmsk ≠ 0 then dwc2_raise_device_irq s ep true
  else dwc2_lower_device_irq s ep true

/-! Frame clock (dwc2_get_frame_remaining, dwc2_sof). -/

/-- Frame clock fields of DWC2State: monotonic SOF timestamp, frame and
bit periods (nanoseconds of virtual time), configured frame interval. -/
structure FrameClock where
  sof_time : Int
  usb_frame_time : Int
  usb_bit_time : Int
  fi : Nat

/-- dwc2_get_frame_remaining, computed on demand from the virtual clock
value `now` at read time.  Int division is C's truncating division
(`Int.tdiv`); all operands are non-negative on every path actually taken. -/
def dwc2_get_frame_remaining (fc : FrameClock) (now : Int) : Int :=
  let tks := now - fc.sof_time
  let tks := if tks < 0 then 0 else tks
  if tks ≥ fc.usb_frame_time then 0
  else if tks < fc.usb_bit_time then (fc.fi : Int)
  else
    let tks := tks.tdiv fc.usb_bit_time
    if tks ≥ (fc.fi : Int) then 0
    else (fc.fi : Int) - tks

/-- dwc2_sof: advance the SOF timestamp by one frame period.  (The
accompanying eof-timer re-arm and GINTSTS_SOF raise act on the timer and
register file, outside this record.) -/
def dwc2_sof (fc : FrameClock) : FrameClock :=
  { fc with sof_time := fc.sof_time + fc.usb_frame_time }

/-! Host-mode channel engine: dwc2_handle_packet. -/

/-- The `done` epilogue of dwc2_handle_packet: clear the channel-enable
bit, fold the channel-halted (and, if no terminal cause was recorded,
transfer-complete) causes into HCINT, clear needs_service, and update the
per-channel interrupt. -/
def handlePacketDone (s : DWC2State) (chan index hcchar intr : Nat) : DWC2State :=
  let hcchar2 := hcchar &&& cpl32 HCCHAR_CHENA
  let s := setHreg1 s index hcchar2
  let intr := if intr &&& HCINTMSK_CHHLTD = 0
              then intr ||| (HCINTMSK_CHHLTD ||| HCINTMSK_XFERCOMPL)
              else intr
  let intr := intr &&& cpl32 HCINTMSK_RESERVED14_31
  let s := setHreg1 s (index + 2) (s.hreg1 (index + 2) ||| intr)
  let s := setPacket s chan { s.packet chan with needs_service := false }
  dwc2_update_hc_irq s index

/-- The non-done epilogue of dwc2_handle_packet: record the decoded packet
fields for later servicing and optionally update the per-channel
interrupt. -/
def handlePacketNext (s : DWC2State) (chan index devadr epnum : Nat)
    (epdir : Bool) (mps pid pcnt len : Nat) (do_intr : Bool) : DWC2State :=
  let p := s.packet chan
  let s := setPacket s chan
    { p with
      devadr := devadr
      epnum := epnum
      epdir := if epdir then 1 else 0
      mps := mps
      pid := pid
      index := index
      pcnt := pcnt
      len := len
      needs_service := true }
  if do_intr then dwc2_update_hc_irq s index else s

/-- dwc2_handle_packet (hw/usb/hcd-dwc2.c, lines 295-476).  `status` and
`actual` are the collaborator's packet status and actual length
(`p->packet.status` / `p->packet.actual_length` after usb_handle_packet
on the send path, or as delivered by the asynchronous completion).
DMA data movement through usb_buf is not modelled; all register and
packet bookkeeping is translated verbatim.  Note that the source's
`stsidx` (index into the pintr cause table) is computed once from the
collaborator status and is NOT refreshed when a SUCCESS packet is
reclassified as BABBLE by the `goto babble` path, so the cause recorded
on that path is the SUCCESS entry (HCINTMSK_XFERCOMPL). -/
def dwc2_handle_packet (s : DWC2State) (devadr index : Nat) (send : Bool)
    (status : USBRet) (actual : Nat) : DWC2State :=
  let hcchar := s.hreg1 index
  let hctsiz := s.hreg1 (index + 4)
  let hcdma := s.hreg1 (index + 5)
  let epnum := get_field hcchar HCCHAR_EPNUM_SH HCCHAR_EPNUM_W
  let epdir := get_bit hcchar HCCHAR_EPDIR
  let eptype := get_field hcchar HCCHAR_EPTYPE_SH HCCHAR_EPTYPE_W
  let mps := get_field hcchar HCCHAR_MPS_SH HCCHAR_MPS_W
  let pid0 := get_field hctsiz TSIZ_SC_MC_PID_SH TSIZ_SC_MC_PID_W
  let pcnt := get_field hctsiz TSIZ_PKTCNT_SH TSIZ_PKTCNT_W
  let len := get_field hctsiz TSIZ_XFERSIZE_SH TSIZ_XFERSIZE_W
  if len > DWC2_MAX_XFER_SIZE then s
  else
  let chan := index / 8
  if mps = 0 then s
  else
  let pid := if eptype = USB_ENDPOINT_XFER_CONTROL ∧ pid0 = TSIZ_SC_MC_PID_SETUP
             then USB_TOKEN_SETUP
             else if epdir then USB_TOKEN_IN else USB_TOKEN_OUT
  let tlen := if send then (if (s.packet chan).small ∧ len > mps then mps else len)
              else (s.packet chan).len
  let s := if send then setPacket s chan { s.packet chan with asyncState := .asyncNone }
           else s
  let p := s.packet chan
  if status = .usbAsync then
    setPacket s chan
      { p with
        devadr := devadr
        epnum := epnum
        epdir := if epdir then 1 else 0
        mps := mps
        pid := pid
        index := index
        pcnt := pcnt
        len := tlen
        asyncState := .asyncInflight
        needs_service := false }
  else
  let status2 := if status = .success ∧ actual > tlen then USBRet.babble else status
  if status2 = .success then
    let tpcnt := actual / mps + (if actual % mps ≠ 0 then 1 else 0)
    let doneShort := actual % mps ≠ 0 ∧ pid = USB_TOKEN_IN
    let pcnt2 := pcnt - (if tpcnt < pcnt then tpcnt else pcnt)
    let hctsiz2 := set_field hctsiz TSIZ_PKTCNT_SH TSIZ_PKTCNT_W pcnt2
    let len2 := len - (if actual < len then actual else len)
    let hctsiz3 := set_field hctsiz2 TSIZ_XFERSIZE_SH TSIZ_XFERSIZE_W len2
    let s := setHreg1 s (index + 4) hctsiz3
    let hcdma2 := (hcdma + actual) % 2 ^ 32
    let s := setHreg1 s (index + 5) hcdma2
    if doneShort ∨ pcnt2 = 0 ∨ len2 = 0 ∨ actual = 0 then
      handlePacketDone s chan index hcchar 0
    else
      handlePacketNext s chan index devadr epnum epdir mps pid pcnt2 len2 false
  else
    let intr := status.intrBit
    if status2 = .nak ∧ (eptype = USB_ENDPOINT_XFER_CONTROL ∨
                         eptype = USB_ENDPOINT_XFER_BULK) then
      let intr := intr &&& cpl32 HCINTMSK_RESERVED14_31
      let s := setHreg1 s (index + 2) (s.hreg1 (index + 2) ||| intr)
      handlePacketNext s chan index devadr epnum epdir mps pid pcnt len true
    else
      handlePacketDone s chan index hcchar (intr ||| HCINTMSK_CHHLTD)

/-! Global register bank read/write (dwc2_glbreg_read, dwc2_glbreg_write)
and the per-register pure value functions of the write-side rules. -/

/-- GINTSTS write rule: write-1-to-clear on the writable bits
(`val |= ~old; val = ~val`), read-only bits preserved. -/
def dwc2_gintsts_write_val (old w : Nat) : Nat :=
  cpl32 (w ||| cpl32 old) ||| (old &&& GINTSTS_RO)

/-- GOTGCTL write rule: read-only bits can be neither set nor cleared. -/
def dwc2_gotgctl_write_val (old w : Nat) : Nat :=
  (w &&& cpl32 GOTGCTL_RO) ||| (old &&& GOTGCTL_RO)

/-- GRSTCTL write rule: AHBIDLE forced on, DMAREQ forced off, latched
self-clearing sub-flags cannot be cleared by writing 0. -/
def dwc2_grstctl_write_val (old w : Nat) : Nat :=
  ((w ||| GRSTCTL_AHBIDLE) &&& cpl32 GRSTCTL_DMAREQ) ||| (old &&& GRSTCTL_SELFCLEAR)

/-- HCINT write rule: write-1-to-clear, reserved bits 14-31 forced to 0. -/
def dwc2_hcint_write_val (old w : Nat) : Nat :=
  cpl32 (w ||| cpl32 old) &&& cpl32 HCINTMSK_RESERVED14_31

/-- DIEPINT write rule (`val = old & ~val`): write-1-to-clear. -/
def dwc2_diepint_write_val (old w : Nat) : Nat := old &&& cpl32 w

/-- DOEPINT write rule (`val = old & ~val`): write-1-to-clear. -/
def dwc2_doepint_write_val (old w : Nat) : Nat := old &&& cpl32 w

/-- Power-on register values of the global bank, word by word
(dwc2_reset_enter, lines 2134-2170).  Shift amounts are those of the
dwc2 register layout (GUSBCFG_USBTRDTIM at 10, FIFOSIZE_DEPTH at 16,
the GHWCFG2/GHWCFG3 subfields at their standard positions). -/
def resetGlbregVals : List Nat :=
  [0, 0, 0, 5 <<< 10, GRSTCTL_AHBIDLE,
   GINTSTS_PTXFEMP ||| GINTSTS_NPTXFEMP, 0, 0, 0, 1024,
   1024 <<< 16, (4 <<< 16) ||| 1024, (1 <<< 28) ||| (1 <<< 24), 0, 0,
   0, 0x4f54300a, 0,
   (8 <<< 26) ||| (4 <<< 24) ||| (4 <<< 22) ||| (1 <<< 19) ||| (1 <<< 18) |||
     ((DWC2_NB_CHAN - 1) <<< 14) ||| (2 <<< 3) ||| 6,
   (4096 <<< 16) ||| (4 <<< 4) ||| 4,
   0, 0, 1 <<< 1, 0, 0, 0, 0, 0]

/-- Register effects of a core soft reset (dwc2_reset_enter followed by
the dwc2_reset_hold interrupt recomputation), restricted to the banks
present in this model.  The timer, port and unmodelled banks (hreg0
power/port registers, dreg control registers other than dcfg/dsts) are
outside the record.  The output-line level `irqlevel` models a C static
and is deliberately not reset. -/
def dwc2_reset_enter_regs (s : DWC2State) : DWC2State :=
  let s := { s with
    glbreg := fun i => resetGlbregVals.getD i 0,
    haint := 0, haintmsk := 0,
    hreg1 := fun _ => 0,
    dcfg := 0, dsts := 0,
    daint := 0, daintmsk := 0, diepmsk := 0, doepmsk := 0,
    diepreg := Function.update (fun _ => 0) 0 DXEPCTL_USBACTEP,
    doepreg := Function.update (fun _ => 0) 0 DXEPCTL_USBACTEP,
    packet := fun i => { s.packet i with needs_service := false } }
  dwc2_update_irq s

/-- dwc2_glbreg_read: out-of-range offsets are logged and return 0 with
no state change; a GRSTCTL read clears (and stores back) the
self-clearing sub-flags. -/
def dwc2_glbreg_read (s : DWC2State) (addr : Nat) : Nat × DWC2State :=
  if addr > GINTSTS2_ADDR then (0, s)
  else
    let idx := addr / 4
    let val := s.glbreg idx
    if addr = GRSTCTL_ADDR then
      let val := val &&& cpl32 GRSTCTL_SELFCLEAR
      (val, setGlbreg s idx val)
    else (val, s)

/-- dwc2_glbreg_write: out-of-range offsets are logged and dropped;
otherwise the per-register write rule is applied and, where the source
sets `iflg`, the output interrupt line is recomputed.  A 0-to-1 edge on
GRSTCTL_CSFTRST performs a core soft reset before the write is stored. -/
def dwc2_glbreg_write (s : DWC2State) (addr w : Nat) : DWC2State :=
  if addr > GINTSTS2_ADDR then s
  else
    let idx := addr / 4
    let old := s.glbreg idx
    if addr = GOTGCTL_ADDR then
      setGlbreg s idx (dwc2_gotgctl_write_val old w)
    else if addr = GAHBCFG_ADDR then
      let s := setGlbreg s idx w
      if w &&& GAHBCFG_GLBL_INTR_EN ≠ 0 ∧ old &&& GAHBCFG_GLBL_INTR_EN = 0 then
        dwc2_update_irq s
      else s
    else if addr = GRSTCTL_ADDR then
      let val := (w ||| GRSTCTL_AHBIDLE) &&& cpl32 GRSTCTL_DMAREQ
      let s := if old &&& GRSTCTL_CSFTRST = 0 ∧ val &&& GRSTCTL_CSFTRST ≠ 0 then
                 dwc2_reset_enter_regs s
               else s
      setGlbreg s idx (val ||| (old &&& GRSTCTL_SELFCLEAR))
    else if addr = GINTSTS_ADDR then
      dwc2_update_irq (setGlbreg s idx (dwc2_gintsts_write_val old w))
    else if addr = GINTMSK_ADDR then
      dwc2_update_irq (setGlbreg s idx w)
    else
      setGlbreg s idx w

/-- The HCINT case of dwc2_hreg1_write: write-1-to-clear, reserved bits
masked, then the per-channel interrupt is updated (`index & ~7` is the
channel's HCCHAR index, written here as `(index / 8) * 8`). -/
def dwc2_hreg1_write_hcint (s : DWC2State) (index w : Nat) : DWC2State :=
  let old := s.hreg1 index
  let s := setHreg1 s index (dwc2_hcint_write_val old w)
  dwc2_update_hc_irq s ((index / 8) * 8)

/-- The DIEPINT case of dwc2_diepreg_write. -/
def dwc2_diepreg_write_diepint (s : DWC2State) (ep w : Nat) : DWC2State :=
  let old := s.diepint ep
  let s := setDiepreg s (8 * ep + 2) (dwc2_diepint_write_val old w)
  dwc2_update_ep_irq s ep

/-- The DOEPINT case of dwc2_doepreg_write. -/
def dwc2_doepreg_write_doepint (s : DWC2State) (ep w : Nat) : DWC2State :=
  let old := s.doepint ep
  let s := setDoepreg s (8 * ep + 2) (dwc2_doepint_write_val old w)
  dwc2_update_ep_irq s ep

/-! Device-mode endpoint engine: dwc2_device_process_packet and the
asynchronous completion wrappers. -/

/-- A USB packet arriving from the upstream host: token, the bytes of its
iov buffer, and the number of bytes already consumed/produced
(`p->actual_length`; `p->iov.size` is `data.length`). -/
structure USBPacketM where
  pid : Nat
  data : List Nat
  actual_length : Nat
deriving DecidableEq

/-- Endpoint-0 max packet size decode (D0EPCTL_MPS field: 64/32/16/8). -/
def d0mps (ctl : Nat) : Nat :=
  let m := ctl &&& D0EPCTL_MPS_MASK
  if m = 0 then 64 else if m = 1 then 32 else if m = 2 then 16 else 8

/-- Truncation of a (possibly negative) C int intermediate to its uint32
bit pattern. -/
def encU32 (x : Int) : Nat := (x.emod (2 ^ 32)).toNat

/-- The USB_TOKEN_IN case of dwc2_device_process_packet (see
dwc2_device_process_packet below for the conventions). -/
def dwc2_device_process_in (s : DWC2State) (p : USBPacketM) (ep : Nat) :
    Option (DWC2State × USBPacketM × USBRet) :=
  let pktsize := p.data.length - p.actual_length
  (if s.diepctl ep &&& DXEPCTL_STALL ≠ 0 then
      some (dwc2_update_ep_irq s ep, p, .stall)
    else if (s.diepctl ep &&& DXEPCTL_USBACTEP = 0) ∨
            (s.diepctl ep &&& DXEPCTL_NAKSTS ≠ 0) ∨
            (s.gintsts &&& GINTSTS_GINNAKEFF ≠ 0) then
      some (dwc2_update_ep_irq s ep, p, .nak)
    else if s.diepctl ep &&& DXEPCTL_EPENA ≠ 0 then
      if s.dcfg &&& DCFG_DESCDMA_EN ≠ 0 then none
      else
        let sz := if ep = 0 then
            get_field (s.dieptsiz ep) DIEPTSIZ0_XFERSIZE_SH DIEPTSIZ0_XFERSIZE_W
          else
            get_field (s.dieptsiz ep) DXEPTSIZ_XFERSIZE_SH DXEPTSIZ_XFERSIZE_W
        let pktcnt : Int := if ep = 0 then
            (get_field (s.dieptsiz ep) DIEPTSIZ0_PKTCNT_SH DIEPTSIZ0_PKTCNT_W : Int)
          else
            (get_field (s.dieptsiz ep) DXEPTSIZ_PKTCNT_SH DXEPTSIZ_PKTCNT_W : Int)
        let mps := if ep = 0 then d0mps (s.diepctl 0)
          else get_field (s.diepctl ep) DXEPCTL_MPS_SH DXEPCTL_MPS_W
        let amtDone := if sz > pktsize then pktsize else sz
        if pktsize ≠ 0 ∧ amtDone = 0 then
          let s := setDiepreg s (8 * ep + 2) (s.diepint ep ||| DXEPINT_INTKNTXFEMP)
          some (dwc2_update_ep_irq s ep, p, .usbAsync)
        else
          let s := if amtDone > 0 ∧ s.diepdma ep ≠ 0 then
              setDiepreg s (8 * ep + 5) ((s.diepdma ep + amtDone) % 2 ^ 32)
            else s
          let p2 := if amtDone > 0 then
              { p with actual_length := p.actual_length + amtDone }
            else p
          let pktcnt2 : Int :=
            if amtDone > 0 then pktcnt - (((amtDone : Int) - 1 + mps).tdiv mps)
            else if pktsize = 0 then pktcnt - 1
            else pktcnt
          let s := if ep = 0 then
              let s := setDiepreg s (8 * ep + 4)
                (set_field (s.dieptsiz ep) DIEPTSIZ0_PKTCNT_SH DIEPTSIZ0_PKTCNT_W
                  (encU32 pktcnt2))
              setDiepreg s (8 * ep + 4)
                (set_field (s.dieptsiz ep) DIEPTSIZ0_XFERSIZE_SH DIEPTSIZ0_XFERSIZE_W
                  (sz - amtDone))
            else
              let s := setDiepreg s (8 * ep + 4)
                (set_field (s.dieptsiz ep) DXEPTSIZ_PKTCNT_SH DXEPTSIZ_PKTCNT_W
                  (encU32 pktcnt2))
              setDiepreg s (8 * ep + 4)
                (set_field (s.dieptsiz ep) DXEPTSIZ_XFERSIZE_SH DXEPTSIZ_XFERSIZE_W
                  (sz - amtDone))
          let s := if sz = amtDone then
              let s := setDiepreg s (8 * ep) (s.diepctl ep &&& cpl32 DXEPCTL_EPENA)
              setDiepreg s (8 * ep + 2) (s.diepint ep ||| DXEPINT_XFERCOMPL)
            else s
          let status := if amtDone < pktsize ∧ amtDone % mps = 0 ∧ amtDone > 0
            then USBRet.usbAsync else USBRet.success
          some (dwc2_update_ep_irq s ep, p2, status)
    else
      some (dwc2_update_ep_irq s ep, p, .usbAsync))

/-- The USB_TOKEN_SETUP / USB_TOKEN_OUT case of
dwc2_device_process_packet, after the endpoint-0 SETUP stall-clearing
preamble (which lives in dwc2_device_process_packet). -/
def dwc2_device_process_out (s : DWC2State) (p : USBPacketM) (ep : Nat) :
    Option (DWC2State × USBPacketM × USBRet) :=
  let pktsize := p.data.length - p.actual_length
  (if s.doepctl ep &&& DXEPCTL_STALL ≠ 0 then
      some (dwc2_update_ep_irq s ep, p, .stall)
    else if (s.doepctl ep &&& DXEPCTL_NAKSTS ≠ 0 ∧ p.pid ≠ USB_TOKEN_SETUP) ∨
            (s.doepctl ep &&& DXEPCTL_USBACTEP = 0) ∨
            (s.gintsts &&& GINTSTS_GOUTNAKEFF ≠ 0) then
      some (dwc2_update_ep_irq s ep, p, .nak)
    else if s.doepctl ep &&& DXEPCTL_EPENA ≠ 0 then
      if s.dcfg &&& DCFG_DESCDMA_EN ≠ 0 then none
      else
        let sz := if ep = 0 then
            get_field (s.doeptsiz ep) DOEPTSIZ0_XFERSIZE_SH DOEPTSIZ0_XFERSIZE_W
          else
            get_field (s.doeptsiz ep) DXEPTSIZ_XFERSIZE_SH DXEPTSIZ_XFERSIZE_W
        let pktcnt : Int := if ep = 0 then
            (get_field (s.doeptsiz ep) DOEPTSIZ0_PKTCNT_SH DOEPTSIZ0_PKTCNT_W : Int)
          else
            (get_field (s.doeptsiz ep) DXEPTSIZ_PKTCNT_SH DXEPTSIZ_PKTCNT_W : Int)
        let mps := if ep = 0 then d0mps (s.doepctl 0)
          else get_field (s.doepctl ep) DXEPCTL_MPS_SH DXEPCTL_MPS_W
        let amtDone := if sz > pktsize then pktsize else sz
        let buffer := if amtDone > 0 then (p.data.drop p.actual_length).take amtDone
          else []
        let p2 := if amtDone > 0 then
            { p with actual_length := p.actual_length + amtDone }
          else p
        let s := if amtDone > 0 ∧ s.doepdma ep ≠ 0 then
            setDoepreg s (8 * ep + 5) ((s.doepdma ep + amtDone) % 2 ^ 32)
          else s
        let pktcnt2 : Int :=
          if amtDone > 0 then pktcnt - (((amtDone : Int) - 1 + mps).tdiv mps)
          else if pktsize = 0 then pktcnt - 1
          else pktcnt
        let s := if ep = 0 then
            let s := if p.pid ≠ USB_TOKEN_SETUP then
                setDoepreg s (8 * ep + 4)
                  (set_field (s.doeptsiz ep) DOEPTSIZ0_PKTCNT_SH DOEPTSIZ0_PKTCNT_W
                    (encU32 pktcnt2))
              else s
            setDoepreg s (8 * ep + 4)
              (set_field (s.doeptsiz ep) DOEPTSIZ0_XFERSIZE_SH DOEPTSIZ0_XFERSIZE_W
                (sz - amtDone))
          else
            let s := setDoepreg s (8 * ep + 4)
              (set_field (s.doeptsiz ep) DXEPTSIZ_PKTCNT_SH DXEPTSIZ_PKTCNT_W
                (encU32 pktcnt2))
            setDoepreg s (8 * ep + 4)
              (set_field (s.doeptsiz ep) DXEPTSIZ_XFERSIZE_SH DXEPTSIZ_XFERSIZE_W
                (sz - amtDone))
        let status := if amtDone < pktsize ∧ amtDone % mps = 0 ∧ amtDone > 0
          then USBRet.usbAsync else USBRet.success
        let s := if p.pid = USB_TOKEN_SETUP ∧ amtDone ≥ 8 then
            let bm := buffer.getD 0 0
            let br := buffer.getD 1 0
            let s := if bm = 0 ∧ br = USB_REQ_SET_ADDRESS ∧ ep = 0 then
                let s := { s with dsts :=
                  (s.dsts &&& cpl32 (maskf DSTS_ENUMSPD_SH DSTS_ENUMSPD_W)) |||
                  (DSTS_ENUMSPD_HS <<< DSTS_ENUMSPD_SH) }
                dwc2_raise_global_irq s GINTSTS_ENUMDONE
              else s
            let s := setDoepreg s (8 * ep + 2) (s.doepint ep ||| DXEPINT_SETUP)
            setDoepreg s (8 * ep + 2) (s.doepint ep ||| DXEPINT_SETUP_RCVD)
          else s
        let s := setDoepreg s (8 * ep) (s.doepctl ep &&& cpl32 DXEPCTL_EPENA)
        let s := setDoepreg s (8 * ep + 2) (s.doepint ep ||| DXEPINT_XFERCOMPL)
        some (dwc2_update_ep_irq s ep, p2, status)
    else
      let s := if ep = 0 then
          setDoepreg s (8 * ep + 2) (s.doepint ep ||| DXEPINT_OUTTKNEPDIS)
        else s
      some (dwc2_update_ep_irq s ep, p, .usbAsync))

/-- dwc2_device_process_packet (hw/usb/hcd-dwc2.c, lines 1203-1560) for
the flat (non-descriptor-DMA) transfer paths.  Returns the updated
controller state, the updated packet and the packet status; `none` when
the descriptor-DMA branch (DCFG_DESCDMA_EN, a guest-memory descriptor
walk not modelled here) would be taken, or for a token other than
IN/OUT/SETUP (g_assert_not_reached in the source).  The dead locals
`txfz`/`fifo` and `supcnt` of the source (computed but never used on
these paths) are omitted; pktcnt intermediates are C ints and are kept
as Int before being truncated into their register fields. -/
def dwc2_device_process_packet (s : DWC2State) (p : USBPacketM) (ep : Nat) :
    Option (DWC2State × USBPacketM × USBRet) :=
  if p.pid = USB_TOKEN_IN then
    dwc2_device_process_in s p ep
  else if p.pid = USB_TOKEN_SETUP ∨ p.pid = USB_TOKEN_OUT then
    let s := if p.pid = USB_TOKEN_SETUP ∧ ep = 0 ∧
                ((s.diepctl ep ||| s.doepctl ep) &&& DXEPCTL_STALL ≠ 0) then
        let s := setDiepreg s (8 * ep) (s.diepctl ep &&& cpl32 DXEPCTL_STALL)
        setDoepreg s (8 * ep) (s.doepctl ep &&& cpl32 DXEPCTL_STALL)
      else s
    dwc2_device_process_out s p ep
  else none

/-- dwc2_device_process_async (lines 1562-1585): process the queued
asynchronous packet and rewrite a NAK processing result to IOERROR
before completing it; the completion is delivered iff the resulting
status differs from USB_RET_ASYNC. -/
def dwc2_device_process_async (s : DWC2State) (p : USBPacketM) (ep : Nat) :
    Option (DWC2State × USBPacketM × USBRet) :=
  match dwc2_device_process_packet s p ep with
  | none => none
  | some (s2, p2, st) => some (s2, p2, if st = .nak then .ioerror else st)

/-- dwc2_usb_device_handle_packet (lines 2353-2365): process the packet
synchronously; if the packet is (still) in flight, rewrite a NAK status
to IOERROR.  `inflight` is `usb_packet_is_inflight(p)` after
processing. -/
def dwc2_usb_device_handle_packet (s : DWC2State) (p : USBPacketM) (ep : Nat)
    (inflight : Bool) : Option (DWC2State × USBPacketM × USBRet) :=
  match dwc2_device_process_packet s p ep with
  | none => none
  | some (s2, p2, st) =>
      some (s2, p2, if inflight ∧ st = .nak then .ioerror else st)

/-! Projection lemmas: which state components the interrupt-aggregation
functions leave untouched. -/

@[simp] theorem update_irq_hreg1 (s : DWC2State) :
    (dwc2_update_irq s).hreg1 = s.hreg1 := by
  simp only [dwc2_update_irq]; split <;> rfl

@[simp] theorem update_irq_packet (s : DWC2State) :
    (dwc2_update_irq s).packet = s.packet := by
  simp only [dwc2_update_irq]; split <;> rfl

@[simp] theorem update_irq_glbreg (s : DWC2State) :
    (dwc2_update_irq s).glbreg = s.glbreg := by
  simp only [dwc2_update_irq]; split <;> rfl

@[simp] theorem update_irq_dsts (s : DWC2State) :
    (dwc2_update_irq s).dsts = s.dsts := by
  simp only [dwc2_update_irq]; split <;> rfl

@[simp] theorem update_irq_doepreg (s : DWC2State) :
    (dwc2_update_irq s).doepreg = s.doepreg := by
  simp only [dwc2_update_irq]; split <;> rfl

@[simp] theorem update_irq_diepreg (s : DWC2State) :
    (dwc2_update_irq s).diepreg = s.diepreg := by
  simp only [dwc2_update_irq]; split <;> rfl

@[simp] theorem raise_global_hreg1 (s : DWC2State) (i : Nat) :
    (dwc2_raise_global_irq s i).hreg1 = s.hreg1 := by
  simp only [dwc2_raise_global_irq]; split <;> simp [setGintsts, setGlbreg]

@[simp] theorem raise_global_packet (s : DWC2State) (i : Nat) :
    (dwc2_raise_global_irq s i).packet = s.packet := by
  simp only [dwc2_raise_global_irq]; split <;> simp [setGintsts, setGlbreg]

@[simp] theorem raise_global_dsts (s : DWC2State) (i : Nat) :
    (dwc2_raise_global_irq s i).dsts = s.dsts := by
  simp only [dwc2_raise_global_irq]; split <;> simp [setGintsts, setGlbreg]

@[simp] theorem raise_global_doepreg (s : DWC2State) (i : Nat) :
    (dwc2_raise_global_irq s i).doepreg = s.doepreg := by
  simp only [dwc2_raise_global_irq]; split <;> simp [setGintsts, setGlbreg]

@[simp] theorem raise_global_diepreg (s : DWC2State) (i : Nat) :
    (dwc2_raise_global_irq s i).diepreg = s.diepreg := by
  simp only [dwc2_raise_global_irq]; split <;> simp [setGintsts, setGlbreg]

@[simp] theorem lower_global_hreg1 (s : DWC2State) (i : Nat) :
    (dwc2_lower_global_irq s i).hreg1 = s.hreg1 := by
  simp only [dwc2_lower_global_irq]; split <;> simp [setGintsts, setGlbreg]

@[simp] theorem lower_global_packet (s : DWC2State) (i : Nat) :
    (dwc2_lower_global_irq s i).packet = s.packet := by
  simp only [dwc2_lower_global_irq]; split <;> simp [setGintsts, setGlbreg]

@[simp] theorem lower_global_dsts (s : DWC2State) (i : Nat) :
    (dwc2_lower_global_irq s i).dsts = s.dsts := by
  simp only [dwc2_lower_global_irq]; split <;> simp [setGintsts, setGlbreg]

@[simp] theorem lower_global_doepreg (s : DWC2State) (i : Nat) :
    (dwc2_lower_global_irq s i).doepreg = s.doepreg := by
  simp only [dwc2_lower_global_irq]; split <;> simp [setGintsts, setGlbreg]

@[simp] theorem lower_global_diepreg (s : DWC2State) (i : Nat) :
    (dwc2_lower_global_irq s i).diepreg = s.diepreg := by
  simp only [dwc2_lower_global_irq]; split <;> simp [setGintsts, setGlbreg]

@[simp] theorem raise_host_hreg1 (s : DWC2State) (i : Nat) :
    (dwc2_raise_host_irq s i).hreg1 = s.hreg1 := by
  simp only [dwc2_raise_host_irq]; split <;> [skip; rfl]; split <;> simp

@[simp] theorem raise_host_packet (s : DWC2State) (i : Nat) :
    (dwc2_raise_host_irq s i).packet = s.packet := by
  simp only [dwc2_raise_host_irq]; split <;> [skip; rfl]; split <;> simp

@[simp] theorem lower_host_hreg1 (s : DWC2State) (i : Nat) :
    (dwc2_lower_host_irq s i).hreg1 = s.hreg1 := by
  simp only [dwc2_lower_host_irq]; split <;> [skip; rfl]; split <;> simp

@[simp] theorem lower_host_packet (s : DWC2State) (i : Nat) :
    (dwc2_lower_host_irq s i).packet = s.packet := by
  simp only [dwc2_lower_host_irq]; split <;> [skip; rfl]; split <;> simp

@[simp] theorem update_hc_irq_hreg1 (s : DWC2State) (i : Nat) :
    (dwc2_update_hc_irq s i).hreg1 = s.hreg1 := by
  simp only [dwc2_update_hc_irq]; split <;> simp

@[simp] theorem update_hc_irq_packet (s : DWC2State) (i : Nat) :
    (dwc2_update_hc_irq s i).packet = s.packet := by
  simp only [dwc2_update_hc_irq]; split <;> simp

@[simp] theorem raise_device_dsts (s : DWC2State) (ep : Nat) (out : Bool) :
    (dwc2_raise_device_irq s ep out).dsts = s.dsts := by
  simp only [dwc2_raise_device_irq]
  split_ifs <;> simp

@[simp] theorem raise_device_doepreg (s : DWC2State) (ep : Nat) (out : Bool) :
    (dwc2_raise_device_irq s ep out).doepreg = s.doepreg := by
  simp only [dwc2_raise_device_irq]
  split_ifs <;> simp

@[simp] theorem lower_device_dsts (s : DWC2State) (ep : Nat) (out : Bool) :
    (dwc2_lower_device_irq s ep out).dsts = s.dsts := by
  simp only [dwc2_lower_device_irq]
  split_ifs <;> simp

@[simp] theorem lower_device_doepreg (s : DWC2State) (ep : Nat) (out : Bool) :
    (dwc2_lower_device_irq s ep out).doepreg = s.doepreg := by
  simp only [dwc2_lower_device_irq]
  split_ifs <;> simp

@[simp] theorem update_ep_irq_dsts (s : DWC2State) (ep : Nat) :
    (dwc2_update_ep_irq s ep).dsts = s.dsts := by
  simp only [dwc2_update_ep_irq]
  split <;> split <;> simp

@[simp] theorem update_ep_irq_doepreg (s : DWC2State) (ep : Nat) :
    (dwc2_update_ep_irq s ep).doepreg = s.doepreg := by
  simp only [dwc2_update_ep_irq]
  split <;> split <;> simp

@[simp] theorem setHreg1_packet (s : DWC2State) (i v : Nat) :
    (setHreg1 s i v).packet = s.packet := rfl

@[simp] theorem setHreg1_at (s : DWC2State) (i v : Nat) :
    (setHreg1 s i v).hreg1 i = v := by
  simp [setHreg1]

theorem setHreg1_ne (s : DWC2State) (i j v : Nat) (h : j ≠ i) :
    (setHreg1 s i v).hreg1 j = s.hreg1 j := by
  simp [setHreg1, Function.update_noteq h]

@[simp] theorem setPacket_hreg1 (s : DWC2State) (c : Nat) (p : DWC2Packet) :
    (setPacket s c p).hreg1 = s.hreg1 := rfl

@[simp] theorem setPacket_at (s : DWC2State) (c : Nat) (p : DWC2Packet) :
    (setPacket s c p).packet c = p := by
  simp [setPacket]

@[simp] theorem setGlbreg_at (s : DWC2State) (i v : Nat) :
    (setGlbreg s i v).glbreg i = v := by
  simp [setGlbreg]

theorem setGlbreg_ne (s : DWC2State) (i j v : Nat) (h : j ≠ i) :
    (setGlbreg s i v).glbreg j = s.glbreg j := by
  simp [setGlbreg, Function.update_noteq h]

@[simp] theorem setGlbreg_irqlevel (s : DWC2State) (i v : Nat) :
    (setGlbreg s i v).irqlevel = s.irqlevel := rfl

/-- Claim C2: a NAK completion on a control or bulk channel records the
NAK cause in HCINT but does not halt the channel: HCCHAR (hence the
channel-enable bit), HCTSIZ (packet count and transfer size) and HCDMA
are unchanged, the channel-halted cause is not raised, and the packet is
rescheduled for retry (needs_service set); a NAK on an isochronous or
interrupt channel halts it (enable cleared, channel-halted cause set). -/
theorem handle_packet_nak_spec (s : DWC2State) (devadr index : Nat)
    (send : Bool) (actual : Nat)
    (hlen : get_field (s.hreg1 (index + 4)) TSIZ_XFERSIZE_SH TSIZ_XFERSIZE_W ≤
            DWC2_MAX_XFER_SIZE)
    (hmps : get_field (s.hreg1 index) HCCHAR_MPS_SH HCCHAR_MPS_W ≠ 0) :
    ((get_field (s.hreg1 index) HCCHAR_EPTYPE_SH HCCHAR_EPTYPE_W =
        USB_ENDPOINT_XFER_CONTROL ∨
      get_field (s.hreg1 index) HCCHAR_EPTYPE_SH HCCHAR_EPTYPE_W =
        USB_ENDPOINT_XFER_BULK) →
      (dwc2_handle_packet s devadr index send .nak actual).hreg1 index =
        s.hreg1 index ∧
      (dwc2_handle_packet s devadr index send .nak actual).hreg1 (index + 4) =
        s.hreg1 (index + 4) ∧
      (dwc2_handle_packet s devadr index send .nak actual).hreg1 (index + 5) =
        s.hreg1 (index + 5) ∧
      (dwc2_handle_packet s devadr index send .nak actual).hreg1 (index + 2) =
        s.hreg1 (index + 2) ||| HCINTMSK_NAK ∧
      (dwc2_handle_packet s devadr index send .nak actual).hreg1 (index + 2) &&&
        HCINTMSK_CHHLTD = s.hreg1 (index + 2) &&& HCINTMSK_CHHLTD ∧
      ((dwc2_handle_packet s devadr index send .nak actual).packet
        (index / 8)).needs_service = true) ∧
    ((get_field (s.hreg1 index) HCCHAR_EPTYPE_SH HCCHAR_EPTYPE_W =
        USB_ENDPOINT_XFER_ISOC ∨
      get_field (s.hreg1 index) HCCHAR_EPTYPE_SH HCCHAR_EPTYPE_W =
        USB_ENDPOINT_XFER_INT) →
      (dwc2_handle_packet s devadr index send .nak actual).hreg1 index =
        s.hreg1 index &&& cpl32 HCCHAR_CHENA ∧
      (dwc2_handle_packet s devadr index send .nak actual).hreg1 (index + 2) =
        s.hreg1 (index + 2) ||| (HCINTMSK_NAK ||| HCINTMSK_CHHLTD) ∧
      ((dwc2_handle_packet s devadr index send .nak actual).packet
        (index / 8)).needs_service = false) := by
  have h1 : ¬(get_field (s.hreg1 (index + 4)) TSIZ_XFERSIZE_SH TSIZ_XFERSIZE_W >
      DWC2_MAX_XFER_SIZE) := by omega
  constructor
  · intro hty
    have hty2 : USBRet.nak = USBRet.nak ∧
        (get_field (s.hreg1 index) HCCHAR_EPTYPE_SH HCCHAR_EPTYPE_W =
          USB_ENDPOINT_XFER_CONTROL ∨
         get_field (s.hreg1 index) HCCHAR_EPTYPE_SH HCCHAR_EPTYPE_W =
          USB_ENDPOINT_XFER_BULK) := ⟨rfl, hty⟩
    simp only [dwc2_handle_packet]
    rw [if_neg h1, if_neg hmps, if_neg (by decide : ¬(USBRet.nak = USBRet.usbAsync)),
      if_neg (fun h => absurd h.1 (by decide) :
        ¬(USBRet.nak = USBRet.success ∧ actual >
          (if send then
            (if (s.packet (index / 8)).small ∧
                get_field (s.hreg1 (index + 4)) TSIZ_XFERSIZE_SH TSIZ_XFERSIZE_W >
                  get_field (s.hreg1 index) HCCHAR_MPS_SH HCCHAR_MPS_W then
              get_field (s.hreg1 index) HCCHAR_MPS_SH HCCHAR_MPS_W
            else get_field (s.hreg1 (index + 4)) TSIZ_XFERSIZE_SH TSIZ_XFERSIZE_W)
          else (s.packet (index / 8)).len))),
      if_neg (by decide : ¬(USBRet.nak = USBRet.success)), if_pos hty2]
    simp only [handlePacketNext, USBRet.intrBit, if_true]
    refine ⟨?_, ?_, ?_, ?_, ?_, ?_⟩
    all_goals
      simp only [update_hc_irq_hreg1, update_hc_irq_packet, setPacket_hreg1,
        setPacket_at, ite_true]
    · rw [setHreg1_ne _ _ _ _ (by omega)]
      cases send <;> simp
    · rw [setHreg1_ne _ _ _ _ (by omega)]
      cases send <;> simp
    · rw [setHreg1_ne _ _ _ _ (by omega)]
      cases send <;> simp
    · rw [setHreg1_at]
      cases send <;> simp <;>
        rw [(by decide : HCINTMSK_NAK &&& cpl32 HCINTMSK_RESERVED14_31 = HCINTMSK_NAK)]
    · rw [setHreg1_at]
      cases send <;> simp <;>
        rw [(by decide : HCINTMSK_NAK &&& cpl32 HCINTMSK_RESERVED14_31 = HCINTMSK_NAK)] <;>
        rw [Nat.and_distrib_right, (by decide : HCINTMSK_NAK &&& HCINTMSK_CHHLTD = 0),
          Nat.or_zero]
  · intro hty
    have htyn : ¬(USBRet.nak = USBRet.nak ∧
        (get_field (s.hreg1 index) HCCHAR_EPTYPE_SH HCCHAR_EPTYPE_W =
          USB_ENDPOINT_XFER_CONTROL ∨
         get_field (s.hreg1 index) HCCHAR_EPTYPE_SH HCCHAR_EPTYPE_W =
          USB_ENDPOINT_XFER_BULK)) := by
      rintro ⟨-, h⟩
      rcases hty with h' | h' <;> rcases h with h'' | h'' <;>
        rw [h'] at h'' <;> exact absurd h'' (by decide)
    simp only [dwc2_handle_packet]
    rw [if_neg h1, if_neg hmps, if_neg (by decide : ¬(USBRet.nak = USBRet.usbAsync)),
      if_neg (fun h => absurd h.1 (by decide) :
        ¬(USBRet.nak = USBRet.success ∧ actual >
          (if send then
            (if (s.packet (index / 8)).small ∧
                get_field (s.hreg1 (index + 4)) TSIZ_XFERSIZE_SH TSIZ_XFERSIZE_W >
                  get_field (s.hreg1 index) HCCHAR_MPS_SH HCCHAR_MPS_W then
              get_field (s.hreg1 index) HCCHAR_MPS_SH HCCHAR_MPS_W
            else get_field (s.hreg1 (index + 4)) TSIZ_XFERSIZE_SH TSIZ_XFERSIZE_W)
          else (s.packet (index / 8)).len))),
      if_neg (by decide : ¬(USBRet.nak = USBRet.success)), if_neg htyn]
    simp only [handlePacketDone, USBRet.intrBit]
    refine ⟨?_, ?_, ?_⟩
    all_goals
      simp only [update_hc_irq_hreg1, update_hc_irq_packet, setPacket_hreg1,
        setPacket_at]
    · rw [setHreg1_ne _ _ _ _ (by omega), setHreg1_at]
    · rw [setHreg1_at, setHreg1_ne _ _ _ _ (by omega)]
      cases send <;> simp <;>
        rw [(by decide : ¬((HCINTMSK_NAK ||| HCINTMSK_CHHLTD) &&& HCINTMSK_CHHLTD = 0))
          |> if_neg,
          (by decide : (HCINTMSK_NAK ||| HCINTMSK_CHHLTD) &&& cpl32 HCINTMSK_RESERVED14_31 =
            HCINTMSK_NAK ||| HCINTMSK_CHHLTD)]

/-- Claim C1 (amended): a SUCCESS completion whose actual length does not
exceed the requested length decrements HCTSIZ.PKTCNT by
ceil(actual/mps) (clamped at zero), decrements HCTSIZ.XFERSIZE by the
actual length, and advances HCDMA by the actual length (modulo 2^32);
the channel halts (enable cleared, channel-halted and transfer-complete
causes set) if and only if the resulting packet count is zero, the
resulting transfer size is zero, the actual length is zero, or the
packet is an IN whose actual length is not a multiple of the max packet
size (short IN packet); otherwise its HCCHAR and HCINT are unchanged and
the packet is rescheduled for another packet. -/
theorem handle_packet_success_spec (s : DWC2State) (devadr index : Nat)
    (send : Bool) (actual mps pcnt len tlen pid tpcnt : Nat)
    (hmps : mps = get_field (s.hreg1 index) HCCHAR_MPS_SH HCCHAR_MPS_W)
    (hpcnt : pcnt = get_field (s.hreg1 (index + 4)) TSIZ_PKTCNT_SH TSIZ_PKTCNT_W)
    (hlen : len = get_field (s.hreg1 (index + 4)) TSIZ_XFERSIZE_SH TSIZ_XFERSIZE_W)
    (htlen : tlen = if send then
        (if (s.packet (index / 8)).small ∧ len > mps then mps else len)
      else (s.packet (index / 8)).len)
    (hpid : pid = if get_field (s.hreg1 index) HCCHAR_EPTYPE_SH HCCHAR_EPTYPE_W =
          USB_ENDPOINT_XFER_CONTROL ∧
        get_field (s.hreg1 (index + 4)) TSIZ_SC_MC_PID_SH TSIZ_SC_MC_PID_W =
          TSIZ_SC_MC_PID_SETUP then USB_TOKEN_SETUP
      else if get_bit (s.hreg1 index) HCCHAR_EPDIR then USB_TOKEN_IN
      else USB_TOKEN_OUT)
    (htp : tpcnt = actual / mps + (if actual % mps ≠ 0 then 1 else 0))
    (hlenMax : len ≤ DWC2_MAX_XFER_SIZE)
    (hmps0 : mps ≠ 0)
    (hactle : actual ≤ tlen) :
    get_field ((dwc2_handle_packet s devadr index send .success actual).hreg1
        (index + 4)) TSIZ_PKTCNT_SH TSIZ_PKTCNT_W = pcnt - tpcnt ∧
    get_field ((dwc2_handle_packet s devadr index send .success actual).hreg1
        (index + 4)) TSIZ_XFERSIZE_SH TSIZ_XFERSIZE_W = len - actual ∧
    (dwc2_handle_packet s devadr index send .success actual).hreg1 (index + 5) =
      (s.hreg1 (index + 5) + actual) % 2 ^ 32 ∧
    (if pcnt - tpcnt = 0 ∨ len - actual = 0 ∨ actual = 0 ∨
        (pid = USB_TOKEN_IN ∧ actual % mps ≠ 0) then
      (dwc2_handle_packet s devadr index send .success actual).hreg1 index =
        s.hreg1 index &&& cpl32 HCCHAR_CHENA ∧
      (dwc2_handle_packet s devadr index send .success actual).hreg1 (index + 2) =
        s.hreg1 (index + 2) ||| (HCINTMSK_CHHLTD ||| HCINTMSK_XFERCOMPL) ∧
      ((dwc2_handle_packet s devadr index send .success actual).packet
        (index / 8)).needs_service = false
    else
      (dwc2_handle_packet s devadr index send .success actual).hreg1 index =
        s.hreg1 index ∧
      (dwc2_handle_packet s devadr index send .success actual).hreg1 (index + 2) =
        s.hreg1 (index + 2) ∧
      ((dwc2_handle_packet s devadr index send .success actual).packet
        (index / 8)).needs_service = true) := by
  have hgen : ∀ j, ((if send then setPacket s (index / 8)
      { s.packet (index / 8) with asyncState := DWC2Async.asyncNone }
    else s).hreg1 j) = s.hreg1 j := by
    cases send <;> simp
  have hpcnt_lt : pcnt < 2 ^ TSIZ_PKTCNT_W := hpcnt ▸ get_field_lt _ _ _
  have hlen_lt : len < 2 ^ TSIZ_XFERSIZE_W := hlen ▸ get_field_lt _ _ _
  simp only [dwc2_handle_packet]
  rw [← hmps, ← hpcnt, ← hlen, ← htlen, ← hpid, ← htp]
  rw [if_neg (by omega : ¬(len > DWC2_MAX_XFER_SIZE)), if_neg hmps0,
    if_neg (by decide : ¬(USBRet.success = USBRet.usbAsync)),
    if_neg (fun hx => absurd hx.2 (by omega) : ¬(True ∧ actual > tlen)),
    if_pos (rfl : USBRet.success = USBRet.success)]
  rw [(by split <;> omega :
        pcnt - (if tpcnt < pcnt then tpcnt else pcnt) = pcnt - tpcnt),
      (by split <;> omega :
        len - (if actual < len then actual else len) = len - actual)]
  by_cases hc : pcnt - tpcnt = 0 ∨ len - actual = 0 ∨ actual = 0 ∨
      (pid = USB_TOKEN_IN ∧ actual % mps ≠ 0)
  · rw [if_pos (by tauto : (actual % mps ≠ 0 ∧ pid = USB_TOKEN_IN) ∨
        pcnt - tpcnt = 0 ∨ len - actual = 0 ∨ actual = 0),
      if_pos hc]
    simp only [handlePacketDone, update_hc_irq_hreg1, update_hc_irq_packet,
      setPacket_hreg1, setPacket_at]
    refine ⟨?_, ?_, ?_, ?_, ?_, trivial⟩
    · rw [setHreg1_ne _ _ _ _ (by omega), setHreg1_ne _ _ _ _ (by omega),
        setHreg1_ne _ _ _ _ (by omega), setHreg1_at,
        get_set_other _ _ _ _ _ _ (by decide) (by decide) (by decide),
        get_set_same _ _ _ _ (by decide) (by omega)]
    · rw [setHreg1_ne _ _ _ _ (by omega), setHreg1_ne _ _ _ _ (by omega),
        setHreg1_ne _ _ _ _ (by omega), setHreg1_at,
        get_set_same _ _ _ _ (by decide) (by omega)]
    · rw [setHreg1_ne _ _ _ _ (by omega), setHreg1_ne _ _ _ _ (by omega),
        setHreg1_at]
    · rw [setHreg1_ne _ _ _ _ (by omega), setHreg1_at]
    · rw [setHreg1_at, setHreg1_ne _ _ _ _ (by omega),
        setHreg1_ne _ _ _ _ (by omega), setHreg1_ne _ _ _ _ (by omega), hgen,
        (by decide : (if (0 : Nat) &&& HCINTMSK_CHHLTD = 0 then
            (0 : Nat) ||| (HCINTMSK_CHHLTD ||| HCINTMSK_XFERCOMPL) else 0) &&&
          cpl32 HCINTMSK_RESERVED14_31 = HCINTMSK_CHHLTD ||| HCINTMSK_XFERCOMPL)]
  · rw [if_neg (by tauto : ¬((actual % mps ≠ 0 ∧ pid = USB_TOKEN_IN) ∨
        pcnt - tpcnt = 0 ∨ len - actual = 0 ∨ actual = 0)),
      if_neg hc]
    simp only [handlePacketNext, update_hc_irq_hreg1, update_hc_irq_packet,
      setPacket_hreg1, setPacket_at, Bool.false_eq_true, if_false]
    refine ⟨?_, ?_, ?_, ?_, ?_, trivial⟩
    · rw [setHreg1_ne _ _ _ _ (by omega), setHreg1_at,
        get_set_other _ _ _ _ _ _ (by decide) (by decide) (by decide),
        get_set_same _ _ _ _ (by decide) (by omega)]
    · rw [setHreg1_ne _ _ _ _ (by omega), setHreg1_at,
        get_set_same _ _ _ _ (by decide) (by omega)]
    · rw [setHreg1_at]
    · rw [setHreg1_ne _ _ _ _ (by omega), setHreg1_ne _ _ _ _ (by omega), hgen]
    · rw [setHreg1_ne _ _ _ _ (by omega), setHreg1_ne _ _ _ _ (by omega), hgen]

/-- An all-zero controller state, used to build concrete test states. -/
def mkState : DWC2State where
  glbreg := fun _ => 0
  haint := 0
  haintmsk := 0
  hreg1 := fun _ => 0
  packet := fun _ => default
  irqlevel := false
  dcfg := 0
  dsts := 0
  daint := 0
  daintmsk := 0
  diepmsk := 0
  doepmsk := 0
  diepreg := fun _ => 0
  doepreg := fun _ => 0

/-- A state with channel 0 programmed as a bulk IN channel: HCCHAR has
MPS 64, EPDIR in, EPTYPE bulk, CHENA; HCTSIZ has XFERSIZE 128 and
PKTCNT 2. -/
def sChan : DWC2State :=
  { mkState with hreg1 := fun i =>
      if i = 0 then 64 ||| (1 <<< 15) ||| (2 <<< 18) ||| (1 <<< 31)
      else if i = 4 then 128 ||| (2 <<< 19)
      else 0 }

/-- Claim C1 (counterexample): on the channel of `sChan`, a SUCCESS
completion of 32 bytes (a short IN packet, 32 ≤ requested 128) leaves
packet count 1, transfer size 96 and a nonzero actual length, yet the
channel is halted (enable bit cleared, channel-halted cause raised) —
contradicting the claim that the channel halts only when the resulting
packet count or transfer size or the actual length is zero. -/
theorem handle_packet_short_in_counterexample :
    get_field ((dwc2_handle_packet sChan 5 0 true .success 32).hreg1 4)
      TSIZ_PKTCNT_SH TSIZ_PKTCNT_W = 1 ∧
    get_field ((dwc2_handle_packet sChan 5 0 true .success 32).hreg1 4)
      TSIZ_XFERSIZE_SH TSIZ_XFERSIZE_W = 96 ∧
    (32 : Nat) ≠ 0 ∧
    (dwc2_handle_packet sChan 5 0 true .success 32).hreg1 0 &&& HCCHAR_CHENA = 0 ∧
    (dwc2_handle_packet sChan 5 0 true .success 32).hreg1 2 &&&
      HCINTMSK_CHHLTD ≠ 0 := by decide

/-- Witness for handle_packet_success_spec at a concrete input: a full
64-byte IN packet on `sChan` leaves packet count 1 and the channel still
enabled (HCCHAR unchanged). -/
theorem handle_packet_success_witness :
    get_field ((dwc2_handle_packet sChan 5 0 true .success 64).hreg1 4)
      TSIZ_PKTCNT_SH TSIZ_PKTCNT_W = 1 ∧
    (dwc2_handle_packet sChan 5 0 true .success 64).hreg1 0 = sChan.hreg1 0 := by
  have h := handle_packet_success_spec sChan 5 0 true 64 64 2 128 128 USB_TOKEN_IN 1
    (by decide) (by decide) (by decide) (by decide) (by decide) (by decide)
    (by decide) (by decide) (by decide)
  refine ⟨h.1, ?_⟩
  have h4 := h.2.2.2
  rw [if_neg (by decide)] at h4
  exact h4.1

/-- Claim C4 (code behavior at the failing input): a SUCCESS completion
of 200 bytes on the channel of `sChan` (exceeding the requested 128) is
reclassified as BABBLE and the channel halts, but because the source's
`stsidx` cause-table index is computed before the `goto babble`
reclassification and never refreshed, the cause recorded in HCINT is
HCINTMSK_XFERCOMPL (the SUCCESS entry), not HCINTMSK_BBLERR.  A BABBLE
status reported by the collaborator itself does set HCINTMSK_BBLERR. -/
theorem handle_packet_babble_reclass_behavior :
    (dwc2_handle_packet sChan 5 0 true .success 200).hreg1 0 &&&
      HCCHAR_CHENA = 0 ∧
    (dwc2_handle_packet sChan 5 0 true .success 200).hreg1 2 &&&
      HCINTMSK_CHHLTD ≠ 0 ∧
    (dwc2_handle_packet sChan 5 0 true .success 200).hreg1 2 &&&
      HCINTMSK_BBLERR = 0 ∧
    (dwc2_handle_packet sChan 5 0 true .success 200).hreg1 2 &&&
      HCINTMSK_XFERCOMPL ≠ 0 ∧
    (dwc2_handle_packet sChan 5 0 true .babble 0).hreg1 2 &&&
      HCINTMSK_BBLERR ≠ 0 := by decide

/-- Claim C6: guest programming errors have no effect: a register read at
a bad (out-of-range) offset returns 0 and stores nothing, a write at a
bad offset is dropped, and dwc2_handle_packet returns with every
register, channel and packet field unchanged when the HCTSIZ transfer
size exceeds DWC2_MAX_XFER_SIZE or when HCCHAR_MPS is zero. -/
theorem guest_error_no_effect :
    (∀ (s : DWC2State) (addr : Nat), addr > GINTSTS2_ADDR →
       dwc2_glbreg_read s addr = (0, s)) ∧
    (∀ (s : DWC2State) (addr w : Nat), addr > GINTSTS2_ADDR →
       dwc2_glbreg_write s addr w = s) ∧
    (∀ (s : DWC2State) (devadr index : Nat) (send : Bool) (st : USBRet)
       (actual : Nat),
       get_field (s.hreg1 (index + 4)) TSIZ_XFERSIZE_SH TSIZ_XFERSIZE_W >
         DWC2_MAX_XFER_SIZE →
       dwc2_handle_packet s devadr index send st actual = s) ∧
    (∀ (s : DWC2State) (devadr index : Nat) (send : Bool) (st : USBRet)
       (actual : Nat),
       get_field (s.hreg1 index) HCCHAR_MPS_SH HCCHAR_MPS_W = 0 →
       get_field (s.hreg1 (index + 4)) TSIZ_XFERSIZE_SH TSIZ_XFERSIZE_W ≤
         DWC2_MAX_XFER_SIZE →
       dwc2_handle_packet s devadr index send st actual = s) := by
  refine ⟨?_, ?_, ?_, ?_⟩
  · intro s addr h
    simp only [dwc2_glbreg_read]
    rw [if_pos h]
  · intro s addr w h
    simp only [dwc2_glbreg_write]
    rw [if_pos h]
  · intro s devadr index send st actual h
    simp only [dwc2_handle_packet]
    rw [if_pos h]
  · intro s devadr index send st actual h h2
    simp only [dwc2_handle_packet]
    rw [if_neg (by omega : ¬(get_field (s.hreg1 (index + 4)) TSIZ_XFERSIZE_SH
        TSIZ_XFERSIZE_W > DWC2_MAX_XFER_SIZE)), if_pos h]

/-- A state whose channel-0 HCTSIZ programs an oversized transfer
(70000 > DWC2_MAX_XFER_SIZE). -/
def sOversize : DWC2State :=
  { mkState with hreg1 := fun i => if i = 4 then 70000 else 0 }

/-- Witness for guest_error_no_effect at concrete inputs: offset 0x70 is
out of range for the global bank; `sOversize` has an oversized transfer
size; `mkState` has a zero max packet size. -/
theorem guest_error_no_effect_witness :
    dwc2_glbreg_read mkState 0x70 = (0, mkState) ∧
    dwc2_glbreg_write mkState 0x70 0xffffffff = mkState ∧
    dwc2_handle_packet sOversize 5 0 true .success 0 = sOversize ∧
    dwc2_handle_packet mkState 5 0 true .success 0 = mkState :=
  ⟨guest_error_no_effect.1 mkState 0x70 (by decide),
   guest_error_no_effect.2.1 mkState 0x70 0xffffffff (by decide),
   guest_error_no_effect.2.2.1 sOversize 5 0 true .success 0 (by decide),
   guest_error_no_effect.2.2.2 mkState 5 0 true .success 0 (by decide) (by decide)⟩

/-- A state with channel 0 programmed as an isochronous IN channel. -/
def sIso : DWC2State :=
  { mkState with hreg1 := fun i =>
      if i = 0 then 64 ||| (1 <<< 15) ||| (1 <<< 18) ||| (1 <<< 31)
      else if i = 4 then 128 ||| (2 <<< 19)
      else 0 }

/-- Witness for handle_packet_nak_spec at concrete inputs: a NAK on the
bulk channel of `sChan` leaves HCCHAR and HCTSIZ untouched, records the
NAK cause, and reschedules the packet; a NAK on the isochronous channel
of `sIso` clears the channel-enable bit. -/
theorem handle_packet_nak_witness :
    (dwc2_handle_packet sChan 5 0 true .nak 0).hreg1 0 = sChan.hreg1 0 ∧
    (dwc2_handle_packet sChan 5 0 true .nak 0).hreg1 2 =
      sChan.hreg1 2 ||| HCINTMSK_NAK ∧
    ((dwc2_handle_packet sChan 5 0 true .nak 0).packet 0).needs_service = true ∧
    (dwc2_handle_packet sIso 5 0 true .nak 0).hreg1 0 =
      sIso.hreg1 0 &&& cpl32 HCCHAR_CHENA := by
  have h1 := handle_packet_nak_spec sChan 5 0 true 0 (by decide) (by decide)
  have h2 := handle_packet_nak_spec sIso 5 0 true 0 (by decide) (by decide)
  have ha := h1.1 (Or.inr (by decide))
  have hb := h2.2 (Or.inl (by decide))
  exact ⟨ha.1, ha.2.2.2.1, ha.2.2.2.2.2, hb.1⟩

/-- Claim C9: the GRSTCTL self-clearing reset sub-flags (TXFFLSH,
RXFFLSH, IN_TKNQ_FLSH, FRMCNTRRST, HSFTRST, CSFTRST) are latched: a
write cannot clear a currently-latched sub-flag (writing 0 leaves every
latched one set), and a read returns all of these sub-flags as 0
regardless of the stored value (and forces them off in the store). -/
theorem grstctl_self_clear_spec :
    (∀ (s : DWC2State) (w : Nat),
       ((dwc2_glbreg_write s GRSTCTL_ADDR w).glbreg (GRSTCTL_ADDR / 4)) &&&
         (s.glbreg (GRSTCTL_ADDR / 4) &&& GRSTCTL_SELFCLEAR) =
         s.glbreg (GRSTCTL_ADDR / 4) &&& GRSTCTL_SELFCLEAR) ∧
    (∀ s : DWC2State,
       (dwc2_glbreg_read s GRSTCTL_ADDR).1 &&& GRSTCTL_SELFCLEAR = 0 ∧
       (dwc2_glbreg_read s GRSTCTL_ADDR).2.glbreg (GRSTCTL_ADDR / 4) &&&
         GRSTCTL_SELFCLEAR = 0) := by
  constructor
  · intro s w
    simp only [dwc2_glbreg_write]
    rw [if_neg (by decide : ¬(GRSTCTL_ADDR > GINTSTS2_ADDR)),
      if_neg (by decide : ¬(GRSTCTL_ADDR = GOTGCTL_ADDR)),
      if_neg (by decide : ¬(GRSTCTL_ADDR = GAHBCFG_ADDR)),
      if_pos trivial]
    rw [setGlbreg_at]
    exact or_and_absorb _ _
  · intro s
    simp only [dwc2_glbreg_read]
    rw [if_neg (by decide : ¬(GRSTCTL_ADDR > GINTSTS2_ADDR)),
      if_pos trivial]
    exact ⟨and_cpl32_self _ _ (by decide),
      by rw [setGlbreg_at]; exact and_cpl32_self _ _ (by decide)⟩

/-- Claim C3: write-1-to-clear semantics of the interrupt/status
registers.  For GINTSTS, HCINT, DIEPINT and DOEPINT, a bit written as 1
comes out cleared, a bit not written as 1 keeps its previous value
(stored = `~(written | ~old)` on the writable bits); GINTSTS's read-only
bits always keep their previous value; HCINT's reserved bits 14-31 are
forced to 0 by every write (so they are unaffected whenever the stored
value satisfies the reserved-bits-clear invariant, which every write
re-establishes). -/
theorem w1c_write_rules :
    (∀ old w b : Nat, old < 2 ^ 32 → w < 2 ^ 32 → b < 32 →
      (GINTSTS_RO.testBit b = false →
        (dwc2_gintsts_write_val old w).testBit b = (old.testBit b && !w.testBit b)) ∧
      (GINTSTS_RO.testBit b = true →
        (dwc2_gintsts_write_val old w).testBit b = old.testBit b)) ∧
    (∀ old w b : Nat, old < 2 ^ 32 → w < 2 ^ 32 → b < 32 →
      (HCINTMSK_RESERVED14_31.testBit b = false →
        (dwc2_hcint_write_val old w).testBit b = (old.testBit b && !w.testBit b)) ∧
      (old &&& HCINTMSK_RESERVED14_31 = 0 →
        HCINTMSK_RESERVED14_31.testBit b = true →
        (dwc2_hcint_write_val old w).testBit b = old.testBit b)) ∧
    (∀ old w : Nat, dwc2_hcint_write_val old w &&& HCINTMSK_RESERVED14_31 = 0) ∧
    (∀ old w b : Nat, old < 2 ^ 32 → w < 2 ^ 32 →
      (dwc2_diepint_write_val old w).testBit b = (old.testBit b && !w.testBit b)) ∧
    (∀ old w b : Nat, old < 2 ^ 32 → w < 2 ^ 32 →
      (dwc2_doepint_write_val old w).testBit b = (old.testBit b && !w.testBit b)) := by
  have hlt : (2 : Nat) ^ 32 - 1 < 2 ^ 32 := by norm_num
  refine ⟨?_, ?_, ?_, ?_, ?_⟩
  · intro old w b ho hw hb
    have hcw : cpl32 old < 2 ^ 32 := Nat.xor_lt_two_pow ho hlt
    have hor : (w ||| cpl32 old) < 2 ^ 32 := Nat.or_lt_two_pow hw hcw
    constructor <;> intro hro <;>
      simp only [dwc2_gintsts_write_val, Nat.testBit_or, Nat.testBit_and,
        testBit_cpl32 _ _ hor, testBit_cpl32 _ _ ho, hro, hb, decide_True] <;>
      cases h1 : old.testBit b <;> cases h2 : w.testBit b <;> simp [h1, h2]
  · intro old w b ho hw hb
    have hcw : cpl32 old < 2 ^ 32 := Nat.xor_lt_two_pow ho hlt
    have hor : (w ||| cpl32 old) < 2 ^ 32 := Nat.or_lt_two_pow hw hcw
    have hres : HCINTMSK_RESERVED14_31 < 2 ^ 32 := by decide
    constructor
    · intro hro
      simp only [dwc2_hcint_write_val, Nat.testBit_and,
        testBit_cpl32 _ _ hor, testBit_cpl32 _ _ ho, testBit_cpl32 _ _ hres,
        hro, hb, decide_True]
      cases h1 : old.testBit b <;> cases h2 : w.testBit b <;>
        simp [h1, h2, testBit_cpl32 _ _ ho, hb]
    · intro hz hro
      have hob : old.testBit b = false := by
        have hzb : (old &&& HCINTMSK_RESERVED14_31).testBit b = false := by
          rw [hz]; simp
        simpa [Nat.testBit_and, hro] using hzb
      simp only [dwc2_hcint_write_val, Nat.testBit_and,
        testBit_cpl32 _ _ hor, testBit_cpl32 _ _ ho, testBit_cpl32 _ _ hres,
        hro, hb, hob, decide_True]
      simp
  · intro old w
    exact and_cpl32_self _ _ (by decide)
  · intro old w b ho hw
    by_cases hb : b < 32
    · simp only [dwc2_diepint_write_val, Nat.testBit_and,
        testBit_cpl32 _ _ hw, hb, decide_True]
      cases h1 : old.testBit b <;> cases h2 : w.testBit b <;> simp [h1, h2]
    · have h1 : old.testBit b = false := Nat.testBit_lt_two_pow
        (lt_of_lt_of_le ho (Nat.pow_le_pow_right (by norm_num) (by omega)))
      simp only [dwc2_diepint_write_val, Nat.testBit_and,
        testBit_cpl32 _ _ hw, hb, h1]
      simp
  · intro old w b ho hw
    by_cases hb : b < 32
    · simp only [dwc2_doepint_write_val, Nat.testBit_and,
        testBit_cpl32 _ _ hw, hb, decide_True]
      cases h1 : old.testBit b <;> cases h2 : w.testBit b <;> simp [h1, h2]
    · have h1 : old.testBit b = false := Nat.testBit_lt_two_pow
        (lt_of_lt_of_le ho (Nat.pow_le_pow_right (by norm_num) (by omega)))
      simp only [dwc2_doepint_write_val, Nat.testBit_and,
        testBit_cpl32 _ _ hw, hb, h1]
      simp

/-- Witness for w1c_write_rules at concrete values: writing 1 to a set
writable bit clears it in each register class. -/
theorem w1c_write_rules_witness :
    (dwc2_gintsts_write_val 8 8).testBit 3 =
      ((8 : Nat).testBit 3 && !(8 : Nat).testBit 3) ∧
    (dwc2_hcint_write_val 16 0).testBit 4 =
      ((16 : Nat).testBit 4 && !(0 : Nat).testBit 4) ∧
    (dwc2_diepint_write_val 1 1).testBit 0 =
      ((1 : Nat).testBit 0 && !(1 : Nat).testBit 0) :=
  ⟨(w1c_write_rules.1 8 8 3 (by norm_num) (by norm_num) (by norm_num)).1
      (by decide),
   (w1c_write_rules.2.1 16 0 4 (by norm_num) (by norm_num) (by norm_num)).1
      (by decide),
   w1c_write_rules.2.2.2.1 1 1 0 (by norm_num) (by norm_num)⟩

theorem irqFormula_irqlevel (s : DWC2State) (l : Bool) :
    irqFormula { s with irqlevel := l } = irqFormula s := rfl

theorem update_irq_establishes (s : DWC2State) :
    (dwc2_update_irq s).irqlevel = irqFormula (dwc2_update_irq s) := by
  simp only [dwc2_update_irq]
  by_cases h : irqFormula s ≠ s.irqlevel
  · rw [if_pos h]
    rfl
  · rw [if_neg h]
    push_neg at h
    exact h.symm

/-- Claim C5 (amended): the output interrupt line equals
`(GINTSTS & GINTMSK) != 0 && (GAHBCFG & GLBL_INTR_EN) != 0` after every
raise/lower call and after every GINTSTS or GINTMSK write, and after any
GAHBCFG write that does not clear an asserted global-enable bit; a
GAHBCFG write that clears the enable bit leaves the line at its previous
(now stale) level, because the source only recomputes on a 0-to-1 enable
edge.  Raising an already-set cause bit and lowering an already-clear
cause bit leave the entire state unchanged (idempotence, no edge). -/
theorem irq_line_spec :
    (∀ (s : DWC2State) (i : Nat), s.irqlevel = irqFormula s →
      (dwc2_raise_global_irq s i).irqlevel =
        irqFormula (dwc2_raise_global_irq s i)) ∧
    (∀ (s : DWC2State) (i : Nat), s.irqlevel = irqFormula s →
      (dwc2_lower_global_irq s i).irqlevel =
        irqFormula (dwc2_lower_global_irq s i)) ∧
    (∀ (s : DWC2State) (w : Nat), s.irqlevel = irqFormula s →
      (dwc2_glbreg_write s GINTSTS_ADDR w).irqlevel =
        irqFormula (dwc2_glbreg_write s GINTSTS_ADDR w)) ∧
    (∀ (s : DWC2State) (w : Nat), s.irqlevel = irqFormula s →
      (dwc2_glbreg_write s GINTMSK_ADDR w).irqlevel =
        irqFormula (dwc2_glbreg_write s GINTMSK_ADDR w)) ∧
    (∀ (s : DWC2State) (w : Nat), s.irqlevel = irqFormula s →
      ¬(s.gahbcfg &&& GAHBCFG_GLBL_INTR_EN ≠ 0 ∧
        w &&& GAHBCFG_GLBL_INTR_EN = 0) →
      (dwc2_glbreg_write s GAHBCFG_ADDR w).irqlevel =
        irqFormula (dwc2_glbreg_write s GAHBCFG_ADDR w)) ∧
    (∀ (s : DWC2State) (w : Nat), w &&& GAHBCFG_GLBL_INTR_EN = 0 →
      (dwc2_glbreg_write s GAHBCFG_ADDR w).irqlevel = s.irqlevel) ∧
    (∀ (s : DWC2State) (i : Nat), s.gintsts &&& i ≠ 0 →
      dwc2_raise_global_irq s i = s) ∧
    (∀ (s : DWC2State) (i : Nat), s.gintsts &&& i = 0 →
      dwc2_lower_global_irq s i = s) := by
  refine ⟨?_, ?_, ?_, ?_, ?_, ?_, ?_, ?_⟩
  · intro s i hinv
    simp only [dwc2_raise_global_irq]
    split
    · exact update_irq_establishes _
    · exact hinv
  · intro s i hinv
    simp only [dwc2_lower_global_irq]
    split
    · exact update_irq_establishes _
    · exact hinv
  · intro s w hinv
    simp only [dwc2_glbreg_write]
    rw [if_neg (by decide : ¬(GINTSTS_ADDR > GINTSTS2_ADDR)),
      if_neg (by decide : ¬(GINTSTS_ADDR = GOTGCTL_ADDR)),
      if_neg (by decide : ¬(GINTSTS_ADDR = GAHBCFG_ADDR)),
      if_neg (by decide : ¬(GINTSTS_ADDR = GRSTCTL_ADDR)),
      if_pos trivial]
    exact update_irq_establishes _
  · intro s w hinv
    simp only [dwc2_glbreg_write]
    rw [if_neg (by decide : ¬(GINTMSK_ADDR > GINTSTS2_ADDR)),
      if_neg (by decide : ¬(GINTMSK_ADDR = GOTGCTL_ADDR)),
      if_neg (by decide : ¬(GINTMSK_ADDR = GAHBCFG_ADDR)),
      if_neg (by decide : ¬(GINTMSK_ADDR = GRSTCTL_ADDR)),
      if_neg (by decide : ¬(GINTMSK_ADDR = GINTSTS_ADDR)),
      if_pos trivial]
    exact update_irq_establishes _
  · intro s w hinv hedge
    simp only [dwc2_glbreg_write]
    rw [if_neg (by decide : ¬(GAHBCFG_ADDR > GINTSTS2_ADDR)),
      if_neg (by decide : ¬(GAHBCFG_ADDR = GOTGCTL_ADDR)),
      if_pos trivial]
    by_cases hif : w &&& GAHBCFG_GLBL_INTR_EN ≠ 0 ∧
        s.glbreg (GAHBCFG_ADDR / 4) &&& GAHBCFG_GLBL_INTR_EN = 0
    · rw [if_pos hif]
      exact update_irq_establishes _
    · rw [if_neg hif]
      rw [setGlbreg_irqlevel, hinv]
      have hgs : (setGlbreg s (GAHBCFG_ADDR / 4) w).gintsts = s.gintsts := by
        unfold DWC2State.gintsts
        exact setGlbreg_ne _ _ _ _ (by decide)
      have hgm : (setGlbreg s (GAHBCFG_ADDR / 4) w).gintmsk = s.gintmsk := by
        unfold DWC2State.gintmsk
        exact setGlbreg_ne _ _ _ _ (by decide)
      have hga : (setGlbreg s (GAHBCFG_ADDR / 4) w).gahbcfg = w := by
        unfold DWC2State.gahbcfg
        exact setGlbreg_at _ _ _
      unfold irqFormula
      rw [hgs, hgm, hga]
      have : decide (w &&& GAHBCFG_GLBL_INTR_EN ≠ 0) =
          decide (s.gahbcfg &&& GAHBCFG_GLBL_INTR_EN ≠ 0) := by
        unfold DWC2State.gahbcfg at hedge
        unfold DWC2State.gahbcfg
        by_cases h1 : w &&& GAHBCFG_GLBL_INTR_EN = 0 <;>
          by_cases h2 : s.glbreg (GAHBCFG_ADDR / 4) &&& GAHBCFG_GLBL_INTR_EN = 0 <;>
          simp [h1, h2] at hif hedge ⊢
      rw [this]
  · intro s w hw
    simp only [dwc2_glbreg_write]
    rw [if_neg (by decide : ¬(GAHBCFG_ADDR > GINTSTS2_ADDR)),
      if_neg (by decide : ¬(GAHBCFG_ADDR = GOTGCTL_ADDR)),
      if_pos trivial,
      if_neg (fun hx => absurd hw hx.1)]
    exact setGlbreg_irqlevel _ _ _
  · intro s i h
    simp only [dwc2_raise_global_irq]
    rw [if_neg h]
  · intro s i h
    simp only [dwc2_lower_global_irq]
    rw [if_neg (fun hc => hc h)]

/-- Claim C5 (counterexample to the claim as stated): enable the mask
and the global-enable bit, raise cause bit 0 (line goes high), then
write GAHBCFG with the global-enable bit clear.  The line formula is now
false but the driven line stays high — the source re-drives the line
only on a 0-to-1 enable edge, so the stored line level and the formula
disagree after this register-operation sequence. -/
theorem irq_line_stale_counterexample :
    (dwc2_glbreg_write (dwc2_raise_global_irq
        (dwc2_glbreg_write (dwc2_glbreg_write mkState GINTMSK_ADDR 1)
          GAHBCFG_ADDR 1) 1)
      GAHBCFG_ADDR 0).irqlevel = true ∧
    irqFormula (dwc2_glbreg_write (dwc2_raise_global_irq
        (dwc2_glbreg_write (dwc2_glbreg_write mkState GINTMSK_ADDR 1)
          GAHBCFG_ADDR 1) 1)
      GAHBCFG_ADDR 0) = false := by decide

/-- A state with GINTSTS bit 0 set. -/
def sGint : DWC2State :=
  { mkState with glbreg := fun i => if i = GINTSTS_ADDR / 4 then 1 else 0 }

/-- Witness for irq_line_spec at concrete inputs: raising on the all-zero
state preserves the line invariant; raising an already-set bit is the
identity; clearing the enable bit leaves the line level unchanged. -/
theorem irq_line_spec_witness :
    (dwc2_raise_global_irq mkState 1).irqlevel =
      irqFormula (dwc2_raise_global_irq mkState 1) ∧
    dwc2_raise_global_irq sGint 1 = sGint ∧
    (dwc2_glbreg_write sGint GAHBCFG_ADDR 0).irqlevel = sGint.irqlevel :=
  ⟨irq_line_spec.1 mkState 1 (by decide),
   irq_line_spec.2.2.2.2.2.2.1 sGint 1 (by decide),
   irq_line_spec.2.2.2.2.2.1 sGint 0 (by decide)⟩

/-- The full-speed frame clock as configured by the source:
frame period 1000000 ns, bit period 83 ns, frame interval 11999. -/
def fcFS : FrameClock := ⟨0, 1000000, 83, 11999⟩

/-- Claim C7 (counterexample): two distinct read times inside the same
frame (0 and 1 ns after SOF, well below the 1000000 ns frame period)
return the same frame-remaining value, so the value does not strictly
decrease as virtual time advances. -/
theorem frame_remaining_not_strict_counterexample :
    (0 : Int) < 1 ∧ (1 : Int) < fcFS.usb_frame_time ∧
    dwc2_get_frame_remaining fcFS 0 = dwc2_get_frame_remaining fcFS 1 ∧
    dwc2_get_frame_remaining fcFS 0 = 11999 := by decide

/-- Claim C7 (amended): within a frame the frame-remaining value
computed on demand from virtual time is non-increasing as virtual time
advances (strictly decreasing only across bit-time boundaries), it is
always between 0 and the configured frame interval fi, and immediately
after a start-of-frame event (reading at the new SOF timestamp) it is
the full interval fi. -/
theorem frame_remaining_spec :
    (∀ (fc : FrameClock) (t1 t2 : Int), 0 < fc.usb_bit_time → t1 ≤ t2 →
      dwc2_get_frame_remaining fc t2 ≤ dwc2_get_frame_remaining fc t1) ∧
    (∀ (fc : FrameClock) (now : Int), 0 < fc.usb_bit_time →
      0 ≤ dwc2_get_frame_remaining fc now ∧
      dwc2_get_frame_remaining fc now ≤ (fc.fi : Int)) ∧
    (∀ fc : FrameClock, 0 < fc.usb_bit_time → 0 < fc.usb_frame_time →
      dwc2_get_frame_remaining (dwc2_sof fc) (dwc2_sof fc).sof_time =
        (fc.fi : Int)) := by
  refine ⟨?_, ?_, ?_⟩
  · intro fc t1 t2 hbit hle
    simp only [dwc2_get_frame_remaining]
    set u1 : Int := if t1 - fc.sof_time < 0 then 0 else t1 - fc.sof_time with hu1
    set u2 : Int := if t2 - fc.sof_time < 0 then 0 else t2 - fc.sof_time with hu2
    have h01 : 0 ≤ u1 := by rw [hu1]; split <;> omega
    have h02 : 0 ≤ u2 := by rw [hu2]; split <;> omega
    have h12 : u1 ≤ u2 := by rw [hu1, hu2]; split <;> split <;> omega
    have hd12 : u1.tdiv fc.usb_bit_time ≤ u2.tdiv fc.usb_bit_time := by
      rw [Int.tdiv_eq_ediv h01 (le_of_lt hbit),
        Int.tdiv_eq_ediv h02 (le_of_lt hbit)]
      exact Int.ediv_le_ediv hbit h12
    have hd1 : 0 ≤ u1.tdiv fc.usb_bit_time := by
      rw [Int.tdiv_eq_ediv h01 (le_of_lt hbit)]
      exact Int.ediv_nonneg h01 (le_of_lt hbit)
    have hd2 : 0 ≤ u2.tdiv fc.usb_bit_time := by
      rw [Int.tdiv_eq_ediv h02 (le_of_lt hbit)]
      exact Int.ediv_nonneg h02 (le_of_lt hbit)
    split_ifs <;> omega
  · intro fc now hbit
    simp only [dwc2_get_frame_remaining]
    set u : Int := if now - fc.sof_time < 0 then 0 else now - fc.sof_time with hu
    have h0 : 0 ≤ u := by rw [hu]; split <;> omega
    have hd : 0 ≤ u.tdiv fc.usb_bit_time := by
      rw [Int.tdiv_eq_ediv h0 (le_of_lt hbit)]
      exact Int.ediv_nonneg h0 (le_of_lt hbit)
    have hfi : (0 : Int) ≤ (fc.fi : Int) := Int.ofNat_nonneg _
    split_ifs <;> omega
  · intro fc hbit hframe
    simp only [dwc2_get_frame_remaining, dwc2_sof]
    rw [if_neg (by omega :
        ¬((fc.sof_time + fc.usb_frame_time) - (fc.sof_time + fc.usb_frame_time) < 0))]
    rw [if_neg (by omega :
        ¬((fc.sof_time + fc.usb_frame_time) - (fc.sof_time + fc.usb_frame_time) ≥
          fc.usb_frame_time))]
    rw [if_pos (by omega :
        (fc.sof_time + fc.usb_frame_time) - (fc.sof_time + fc.usb_frame_time) <
          fc.usb_bit_time)]

/-- Witness for frame_remaining_spec at concrete inputs on the
full-speed clock. -/
theorem frame_remaining_spec_witness :
    dwc2_get_frame_remaining fcFS 200 ≤ dwc2_get_frame_remaining fcFS 100 ∧
    (0 ≤ dwc2_get_frame_remaining fcFS 500 ∧
     dwc2_get_frame_remaining fcFS 500 ≤ (fcFS.fi : Int)) ∧
    dwc2_get_frame_remaining (dwc2_sof fcFS) (dwc2_sof fcFS).sof_time =
      (fcFS.fi : Int) :=
  ⟨frame_remaining_spec.1 fcFS 100 200 (by decide) (by decide),
   frame_remaining_spec.2.1 fcFS 500 (by decide),
   frame_remaining_spec.2.2 fcFS (by decide) (by decide)⟩

/-- Claim C10: a device-mode packet completed through the asynchronous
path (dwc2_device_process_async) never carries a NAK status — a NAK
processing result is rewritten to IOERROR before completion; the same
rewrite happens in dwc2_usb_device_handle_packet when the packet is in
flight, while the synchronous (not-in-flight) path returns the
processing result unchanged, so only the synchronous path can deliver a
NAK to the upstream host. -/
theorem device_async_no_nak :
    (∀ (s : DWC2State) (p : USBPacketM) (ep : Nat) (s2 : DWC2State)
       (p2 : USBPacketM) (st : USBRet),
       dwc2_device_process_async s p ep = some (s2, p2, st) →
       st ≠ USBRet.nak) ∧
    (∀ (s : DWC2State) (p : USBPacketM) (ep : Nat) (s2 : DWC2State)
       (p2 : USBPacketM) (st : USBRet),
       dwc2_usb_device_handle_packet s p ep true = some (s2, p2, st) →
       st ≠ USBRet.nak) ∧
    (∀ (s : DWC2State) (p : USBPacketM) (ep : Nat),
       dwc2_usb_device_handle_packet s p ep false =
         dwc2_device_process_packet s p ep) := by
  refine ⟨?_, ?_, ?_⟩
  · intro s p ep s2 p2 st h
    cases hp : dwc2_device_process_packet s p ep with
    | none =>
      simp only [dwc2_device_process_async, hp] at h
      exact absurd h (by simp)
    | some r =>
      obtain ⟨a, b, c⟩ := r
      simp only [dwc2_device_process_async, hp, Option.some.injEq,
        Prod.mk.injEq] at h
      obtain ⟨-, -, hst⟩ := h
      subst hst
      by_cases hc : c = USBRet.nak <;> simp [hc]
  · intro s p ep s2 p2 st h
    cases hp : dwc2_device_process_packet s p ep with
    | none =>
      simp only [dwc2_usb_device_handle_packet, hp] at h
      exact absurd h (by simp)
    | some r =>
      obtain ⟨a, b, c⟩ := r
      simp only [dwc2_usb_device_handle_packet, hp, Option.some.injEq,
        Prod.mk.injEq] at h
      obtain ⟨-, -, hst⟩ := h
      subst hst
      by_cases hc : c = USBRet.nak <;> simp [hc]
  · intro s p ep
    cases hp : dwc2_device_process_packet s p ep with
    | none => simp only [dwc2_usb_device_handle_packet, hp]
    | some r =>
      obtain ⟨a, b, c⟩ := r
      simp only [dwc2_usb_device_handle_packet, hp, Bool.false_eq_true,
        false_and, if_false]

/-- A device state with endpoint 0 IN stalled. -/
def sStall : DWC2State :=
  { mkState with diepreg := fun i => if i = 0 then DXEPCTL_STALL else 0 }

/-- An IN token packet with an empty buffer. -/
def pIn : USBPacketM := ⟨USB_TOKEN_IN, [], 0⟩

/-- Witness for device_async_no_nak: the stalled endpoint of `sStall`
produces a STALL completion through the asynchronous path, and STALL is
not NAK. -/
theorem device_async_no_nak_witness :
    dwc2_device_process_async sStall pIn 0 =
      some (dwc2_update_ep_irq sStall 0, pIn, USBRet.stall) ∧
    USBRet.stall ≠ USBRet.nak :=
  ⟨rfl,
   device_async_no_nak.1 sStall pIn 0 (dwc2_update_ep_irq sStall 0) pIn
     USBRet.stall rfl⟩

@[simp] theorem setDoepreg_dsts (s : DWC2State) (i v : Nat) :
    (setDoepreg s i v).dsts = s.dsts := rfl

@[simp] theorem setDiepreg_dsts (s : DWC2State) (i v : Nat) :
    (setDiepreg s i v).dsts = s.dsts := rfl

@[simp] theorem setDoepreg_glbreg (s : DWC2State) (i v : Nat) :
    (setDoepreg s i v).glbreg = s.glbreg := rfl

@[simp] theorem setDiepreg_glbreg (s : DWC2State) (i v : Nat) :
    (setDiepreg s i v).glbreg = s.glbreg := rfl

@[simp] theorem setDoepreg_dcfg (s : DWC2State) (i v : Nat) :
    (setDoepreg s i v).dcfg = s.dcfg := rfl

@[simp] theorem setDiepreg_dcfg (s : DWC2State) (i v : Nat) :
    (setDiepreg s i v).dcfg = s.dcfg := rfl

@[simp] theorem setDiepreg_doepreg (s : DWC2State) (i v : Nat) :
    (setDiepreg s i v).doepreg = s.doepreg := rfl

@[simp] theorem setDoepreg_at (s : DWC2State) (i v : Nat) :
    (setDoepreg s i v).doepreg i = v := by
  simp [setDoepreg]

theorem setDoepreg_ne (s : DWC2State) (i j v : Nat) (h : j ≠ i) :
    (setDoepreg s i v).doepreg j = s.doepreg j := by
  simp [setDoepreg, Function.update_noteq h]

/-- Clearing a field with the set_field complement mask yields 0 when the
field is read back. -/
theorem get_field_and_cpl32 (x sh w : Nat) (hw : sh + w ≤ 32) :
    get_field (x &&& cpl32 (maskf sh w)) sh w = 0 := by
  apply Nat.eq_of_testBit_eq
  intro i
  rw [testBit_get_field]
  simp only [Nat.testBit_and, testBit_cpl32 _ _ (maskf_lt sh w hw),
    testBit_maskf, Nat.zero_testBit]
  by_cases h : i < w
  · have h1 : sh ≤ sh + i := Nat.le_add_right _ _
    have h2 : sh + i < sh + w := by omega
    simp [h, h1, h2]
  · simp [h]

theorem raise_global_glbreg_and_disj (s : DWC2State) (i b : Nat)
    (hdisj : i &&& b = 0) :
    (dwc2_raise_global_irq s i).glbreg (GINTSTS_ADDR / 4) &&& b =
      s.glbreg (GINTSTS_ADDR / 4) &&& b := by
  simp only [dwc2_raise_global_irq]
  split
  · rw [update_irq_glbreg]
    simp only [setGintsts, setGlbreg_at]
    rw [Nat.and_distrib_right, hdisj, Nat.or_zero]
    rfl
  · rfl

theorem lower_global_glbreg_and_disj (s : DWC2State) (i b : Nat)
    (hdisj : i &&& b = 0) (hi : i < 2 ^ 32) (hb : b < 2 ^ 32) :
    (dwc2_lower_global_irq s i).glbreg (GINTSTS_ADDR / 4) &&& b =
      s.glbreg (GINTSTS_ADDR / 4) &&& b := by
  simp only [dwc2_lower_global_irq]
  split
  · rw [update_irq_glbreg]
    simp only [setGintsts, setGlbreg_at]
    exact and_cpl32_other _ _ _ hi hb hdisj
  · rfl

theorem raise_IEPINT_enum (s : DWC2State) :
    (dwc2_raise_global_irq s GINTSTS_IEPINT).glbreg (GINTSTS_ADDR / 4) &&&
      GINTSTS_ENUMDONE =
      s.glbreg (GINTSTS_ADDR / 4) &&& GINTSTS_ENUMDONE :=
  raise_global_glbreg_and_disj s GINTSTS_IEPINT GINTSTS_ENUMDONE (by decide)

theorem raise_OEPINT_enum (s : DWC2State) :
    (dwc2_raise_global_irq s GINTSTS_OEPINT).glbreg (GINTSTS_ADDR / 4) &&&
      GINTSTS_ENUMDONE =
      s.glbreg (GINTSTS_ADDR / 4) &&& GINTSTS_ENUMDONE :=
  raise_global_glbreg_and_disj s GINTSTS_OEPINT GINTSTS_ENUMDONE (by decide)

theorem lower_IEPINT_enum (s : DWC2State) :
    (dwc2_lower_global_irq s GINTSTS_IEPINT).glbreg (GINTSTS_ADDR / 4) &&&
      GINTSTS_ENUMDONE =
      s.glbreg (GINTSTS_ADDR / 4) &&& GINTSTS_ENUMDONE :=
  lower_global_glbreg_and_disj s GINTSTS_IEPINT GINTSTS_ENUMDONE (by decide)
    (by decide) (by decide)

theorem lower_OEPINT_enum (s : DWC2State) :
    (dwc2_lower_global_irq s GINTSTS_OEPINT).glbreg (GINTSTS_ADDR / 4) &&&
      GINTSTS_ENUMDONE =
      s.glbreg (GINTSTS_ADDR / 4) &&& GINTSTS_ENUMDONE :=
  lower_global_glbreg_and_disj s GINTSTS_OEPINT GINTSTS_ENUMDONE (by decide)
    (by decide) (by decide)

theorem raise_device_enumdone (s : DWC2State) (ep : Nat) (out : Bool) :
    (dwc2_raise_device_irq s ep out).glbreg (GINTSTS_ADDR / 4) &&&
      GINTSTS_ENUMDONE =
      s.glbreg (GINTSTS_ADDR / 4) &&& GINTSTS_ENUMDONE := by
  simp only [dwc2_raise_device_irq]
  split_ifs <;> simp [raise_IEPINT_enum, raise_OEPINT_enum]

theorem lower_device_enumdone (s : DWC2State) (ep : Nat) (out : Bool) :
    (dwc2_lower_device_irq s ep out).glbreg (GINTSTS_ADDR / 4) &&&
      GINTSTS_ENUMDONE =
      s.glbreg (GINTSTS_ADDR / 4) &&& GINTSTS_ENUMDONE := by
  simp only [dwc2_lower_device_irq]
  split_ifs <;> simp [lower_IEPINT_enum, lower_OEPINT_enum]

theorem update_ep_irq_enumdone (s : DWC2State) (ep : Nat) :
    (dwc2_update_ep_irq s ep).glbreg (GINTSTS_ADDR / 4) &&&
      GINTSTS_ENUMDONE =
      s.glbreg (GINTSTS_ADDR / 4) &&& GINTSTS_ENUMDONE := by
  simp only [dwc2_update_ep_irq]
  split <;> split <;>
    simp [raise_device_enumdone, lower_device_enumdone]

theorem raise_global_sets_bits (s : DWC2State) (i : Nat) (hi : i ≠ 0) :
    (dwc2_raise_global_irq s i).glbreg (GINTSTS_ADDR / 4) &&& i ≠ 0 := by
  simp only [dwc2_raise_global_irq]
  split
  · rw [update_irq_glbreg]
    simp only [setGintsts, setGlbreg_at]
    rw [or_and_absorb]
    exact hi
  · next h => exact h

theorem out_setup_set_address (s : DWC2State) (p : USBPacketM)
    (hstall : s.doepctl 0 &&& DXEPCTL_STALL = 0)
    (hact : s.doepctl 0 &&& DXEPCTL_USBACTEP ≠ 0)
    (hena : s.doepctl 0 &&& DXEPCTL_EPENA ≠ 0)
    (hnak : s.gintsts &&& GINTSTS_GOUTNAKEFF = 0)
    (hdma : s.dcfg &&& DCFG_DESCDMA_EN = 0)
    (hsz : 8 ≤ get_field (s.doeptsiz 0) DOEPTSIZ0_XFERSIZE_SH DOEPTSIZ0_XFERSIZE_W)
    (hpid : p.pid = USB_TOKEN_SETUP)
    (hdat : p.data.length = 8)
    (hal : p.actual_length = 0)
    (hb0 : p.data.getD 0 0 = 0)
    (hb1 : p.data.getD 1 0 = USB_REQ_SET_ADDRESS) :
    ∃ s2 p2 st, dwc2_device_process_out s p 0 = some (s2, p2, st) ∧
      get_field s2.dsts DSTS_ENUMSPD_SH DSTS_ENUMSPD_W = DSTS_ENUMSPD_HS ∧
      s2.gintsts &&& GINTSTS_ENUMDONE ≠ 0 := by
  simp only [dwc2_device_process_out, hpid, hdat, hal]
  rw [if_neg (fun hx => hx hstall),
    if_neg (by
      rintro (⟨-, hne⟩ | hA | hG)
      · exact hne rfl
      · exact hact hA
      · exact hG hnak),
    if_pos hena, if_neg (fun hx => hx hdma)]
  simp only [if_true, Nat.sub_zero, List.drop_zero]
  rw [(by split <;> omega :
    (if get_field (s.doeptsiz 0) DOEPTSIZ0_XFERSIZE_SH DOEPTSIZ0_XFERSIZE_W > 8
     then (8 : Nat)
     else get_field (s.doeptsiz 0) DOEPTSIZ0_XFERSIZE_SH DOEPTSIZ0_XFERSIZE_W) = 8)]
  norm_num
  have hb0' : p.data[0]?.getD 0 = 0 := by simpa using hb0
  have hb1' : p.data[1]?.getD 0 = USB_REQ_SET_ADDRESS := by simpa using hb1
  simp only [hb0', hb1', and_self, if_true, eq_self_iff_true, true_and, and_true]
  constructor
  · simp only [raise_global_dsts]
    rw [(by decide : DSTS_ENUMSPD_HS <<< DSTS_ENUMSPD_SH = 0), Nat.or_zero]
    exact (get_field_and_cpl32 _ _ _ (by decide)).trans (by decide)
  · intro hc
    simp only [DWC2State.gintsts] at hc
    rw [update_ep_irq_enumdone, setDoepreg_glbreg, setDoepreg_glbreg,
      setDoepreg_glbreg, setDoepreg_glbreg] at hc
    exact raise_global_sets_bits _ GINTSTS_ENUMDONE (by decide) hc

/-- Claim C8 (amended): in device mode, an 8-byte SETUP transaction on
endpoint 0 whose payload has bmRequestType 0 and bRequest SET_ADDRESS
updates the enumerated-speed field of DSTS (to the high-speed value) and
raises the GINTSTS_ENUMDONE cause, provided the endpoint-0 OUT endpoint
is active and enabled (DXEPCTL_USBACTEP and DXEPCTL_EPENA set in
DOEPCTL0), global OUT NAK is not in effect, descriptor DMA is disabled
and the programmed OUT transfer size is at least 8 bytes.  Without these
gates the SETUP payload is not parsed (see the counterexample theorem):
the claim as stated, quantifying over every SETUP transaction, is too
strong. -/
theorem device_setup_set_address (s : DWC2State) (p : USBPacketM)
    (hact : s.doepctl 0 &&& DXEPCTL_USBACTEP ≠ 0)
    (hena : s.doepctl 0 &&& DXEPCTL_EPENA ≠ 0)
    (hnak : s.gintsts &&& GINTSTS_GOUTNAKEFF = 0)
    (hdma : s.dcfg &&& DCFG_DESCDMA_EN = 0)
    (hsz : 8 ≤ get_field (s.doeptsiz 0) DOEPTSIZ0_XFERSIZE_SH DOEPTSIZ0_XFERSIZE_W)
    (hpid : p.pid = USB_TOKEN_SETUP)
    (hdat : p.data.length = 8)
    (hal : p.actual_length = 0)
    (hb0 : p.data.getD 0 0 = 0)
    (hb1 : p.data.getD 1 0 = USB_REQ_SET_ADDRESS) :
    ∃ s2 p2 st, dwc2_device_process_packet s p 0 = some (s2, p2, st) ∧
      get_field s2.dsts DSTS_ENUMSPD_SH DSTS_ENUMSPD_W = DSTS_ENUMSPD_HS ∧
      s2.gintsts &&& GINTSTS_ENUMDONE ≠ 0 := by
  simp only [dwc2_device_process_packet, hpid]
  rw [if_neg (by decide : ¬(USB_TOKEN_SETUP = USB_TOKEN_IN)),
    if_pos (Or.inl trivial)]
  by_cases hstall : (s.diepctl 0 ||| s.doepctl 0) &&& DXEPCTL_STALL ≠ 0
  · rw [if_pos ⟨trivial, trivial, hstall⟩]
    refine out_setup_set_address _ p ?_ ?_ ?_ ?_ ?_ ?_ hpid hdat hal hb0 hb1
    · simp only [DWC2State.doepctl, Nat.mul_zero, setDoepreg_at,
        setDiepreg_doepreg]
      exact and_cpl32_self _ _ (by decide)
    · simp only [DWC2State.doepctl, Nat.mul_zero, setDoepreg_at,
        setDiepreg_doepreg]
      rw [and_cpl32_other _ _ _ (by decide) (by decide) (by decide)]
      exact hact
    · simp only [DWC2State.doepctl, Nat.mul_zero, setDoepreg_at,
        setDiepreg_doepreg]
      rw [and_cpl32_other _ _ _ (by decide) (by decide) (by decide)]
      exact hena
    · simp only [DWC2State.gintsts, setDoepreg_glbreg, setDiepreg_glbreg]
      exact hnak
    · simp only [setDoepreg_dcfg, setDiepreg_dcfg]
      exact hdma
    · simp only [DWC2State.doeptsiz, Nat.mul_zero, Nat.zero_add]
      rw [setDoepreg_ne _ _ _ _ (by decide)]
      simp only [setDiepreg_doepreg]
      exact hsz
  · rw [if_neg (fun hc => hstall hc.2.2)]
    have h0 : (s.diepctl 0 ||| s.doepctl 0) &&& DXEPCTL_STALL = 0 :=
      not_not.mp hstall
    have hst : s.doepctl 0 &&& DXEPCTL_STALL = 0 := by
      by_contra hns
      rw [Nat.or_comm] at h0
      exact and_ne_zero_of_or_left hns h0
    exact out_setup_set_address s p hst hact hena hnak hdma hsz hpid hdat hal
      hb0 hb1

/-- An 8-byte SETUP packet carrying a SET_ADDRESS standard request
(bmRequestType 0, bRequest 5, wValue 5). -/
def pSetup : USBPacketM := ⟨USB_TOKEN_SETUP, [0, 5, 5, 0, 0, 0, 0, 0], 0⟩

/-- A device state whose endpoint-0 OUT endpoint is active but NOT
enabled (DXEPCTL_EPENA clear), with a non-zero enumerated-speed field
already stored in DSTS. -/
def sEpDis : DWC2State :=
  { mkState with
      dsts := 6
      doepreg := fun i => if i = 0 then DXEPCTL_USBACTEP else 0 }

/-- A device state whose endpoint-0 OUT endpoint is active and enabled
with an 8-byte OUT transfer programmed in DOEPTSIZ0. -/
def sEpEn : DWC2State :=
  { mkState with
      doepreg := fun i =>
        if i = 0 then DXEPCTL_USBACTEP ||| DXEPCTL_EPENA
        else if i = 4 then 8 else 0 }

/-- The observables claim C8 speaks about, at endpoint 0: the
enumerated-speed field of DSTS and the ENUMDONE bit of GINTSTS after
processing, when processing succeeds. -/
def c8Outcome (s : DWC2State) (p : USBPacketM) : Option (Nat × Nat) :=
  (dwc2_device_process_packet s p 0).map
    (fun r => (get_field r.1.dsts DSTS_ENUMSPD_SH DSTS_ENUMSPD_W,
               r.1.gintsts &&& GINTSTS_ENUMDONE))

/-- Counterexample to claim C8 as stated: pSetup is an 8-byte SETUP
transaction on endpoint 0 with bmRequestType 0 and bRequest
SET_ADDRESS, yet processing it in state sEpDis (endpoint-0 OUT not
enabled) leaves the enumerated-speed field at its old value 3 (not the
high-speed value) and does not raise GINTSTS_ENUMDONE: the payload is
not parsed. -/
theorem device_setup_gate_counterexample :
    pSetup.pid = USB_TOKEN_SETUP ∧ pSetup.data.length = 8 ∧
    pSetup.data.getD 0 0 = 0 ∧ pSetup.data.getD 1 0 = USB_REQ_SET_ADDRESS ∧
    get_field sEpDis.dsts DSTS_ENUMSPD_SH DSTS_ENUMSPD_W = 3 ∧
    c8Outcome sEpDis pSetup = some (3, 0) ∧ DSTS_ENUMSPD_HS ≠ 3 := by
  decide

/-- Witness for claim C8: the amended theorem applied at the concrete
enabled state sEpEn with the concrete SET_ADDRESS packet pSetup. -/
theorem device_setup_set_address_witness :
    ∃ s2 p2 st, dwc2_device_process_packet sEpEn pSetup 0 = some (s2, p2, st) ∧
      get_field s2.dsts DSTS_ENUMSPD_SH DSTS_ENUMSPD_W = DSTS_ENUMSPD_HS ∧
      s2.gintsts &&& GINTSTS_ENUMDONE ≠ 0 :=
  device_setup_set_address sEpEn pSetup (by decide) (by decide) (by decide)
    (by decide) (by decide) (by decide) (by decide) (by decide) (by decide)
    (by decide)

end DWC2
